import Mathlib

/-!
Verification of the OPC/PPTX deep-comparison tool (`tools/pptx_deep_compare.py`).

The Python source is shallowly embedded below.  Conventions of the embedding:

* Python `str` is Lean `String`.  All string operations used by the source
  (`split`, `join`, `startswith`, `endswith`, `in`, `replace`, `upper`,
  `lstrip`, `strip`, `int(...)`) are re-implemented structurally over
  `String.data` so that every definition evaluates inside the kernel.
* Python `dict` is an association list (`List (key × value)`) with Python
  insertion-order semantics: assignment updates an existing key in place and
  appends a fresh key at the end.  Python `set` iteration order is
  unspecified; the embedding iterates sets in first-insertion order, and no
  theorem below depends on the iteration order of a set.
* An XML byte blob is `Content.xml t` (bytes that parse to the element tree
  `t`) or `Content.bin b` (bytes that are not well-formed XML, or binary
  data).  `ET.fromstring` is the function `fromstring` below; an
  `ET.ParseError` is `PyErr.parseError`.  Part fingerprints (`sha256[:16]`)
  are modelled by the content itself, i.e. the hash is taken to be injective.
* Python exceptions that the source does not catch are modelled with
  `Except PyErr`; a function that cannot raise is total.
* Display-only message strings (`'msg'`, hypothesis `title`/`evidence`/`fix`
  texts) are not modelled; issues, diffs and hypotheses are inductive values
  carrying exactly the structured fields of the corresponding Python dicts.
-/

namespace PPTX

/-! ### Python string primitives (structural re-implementations) -/

def ofChars (l : List Char) : String := ⟨l⟩

def splitChAux (c : Char) : List Char → List Char → List (List Char)
| [], acc => [acc.reverse]
| x :: xs, acc => if x == c then acc.reverse :: splitChAux c xs [] else splitChAux c xs (x :: acc)

/-- Python `s.split(c)` for a one-character separator (keeps empty pieces). -/
def pySplit (s : String) (c : Char) : List String := (splitChAux c s.data []).map ofChars

/-- Python `c.join(l)` for a one-character separator. -/
def pyJoin (sep : Char) (l : List String) : String :=
  ofChars (List.intercalate [sep] (l.map String.data))

/-- Python `s.startswith(pre)`. -/
def pyStartsWith (s pre : String) : Bool := pre.data.isPrefixOf s.data

/-- Python `s.endswith(suf)`. -/
def pyEndsWith (s suf : String) : Bool := suf.data.isSuffixOf s.data

def subOf : List Char → List Char → Bool
| n, [] => n.isEmpty
| n, h :: hs => n.isPrefixOf (h :: hs) || subOf n hs

/-- Python `needle in hay` on strings. -/
def pyIn (needle hay : String) : Bool := subOf needle.data hay.data

def replFuel (p r : List Char) : Nat → List Char → List Char
| 0, rest => rest
| _ + 1, [] => []
| fuel + 1, h :: t =>
  if p.isPrefixOf (h :: t) then r ++ replFuel p r fuel (List.drop p.length (h :: t))
  else h :: replFuel p r fuel t

/-- Python `s.replace(pat, rep)` (all occurrences, left to right). -/
def pyReplace (s pat rep : String) : String :=
  if pat.data.isEmpty then s else ofChars (replFuel pat.data rep.data s.data.length s.data)

def chUp (c : Char) : Char := if 'a' ≤ c && c ≤ 'z' then Char.ofNat (c.toNat - 32) else c

/-- Python `s.upper()` (ASCII range, which covers every use in the source). -/
def pyUpper (s : String) : String := ofChars (s.data.map chUp)

/-- Python `s.lstrip(c)` for a one-character argument. -/
def pyLStrip (c : Char) (s : String) : String := ofChars (s.data.dropWhile (· == c))

def isSp (c : Char) : Bool := c == ' ' || c == '\t' || c == '\n' || c == '\r'

/-- Python `s.strip()` (common whitespace). -/
def pyStrip (s : String) : String :=
  ofChars (((s.data.dropWhile isSp).reverse.dropWhile isSp).reverse)

def digitsValGo : List Char → Nat → Option Nat
| [], acc => some acc
| d :: ds, acc => if d.isDigit then digitsValGo ds (acc * 10 + (d.toNat - 48)) else none

def digitsVal : List Char → Option Nat
| [] => none
| ds => digitsValGo ds 0

/-- Uncaught Python exceptions relevant to the source. -/
inductive PyErr where
| parseError
| valueError
deriving DecidableEq, Repr

/-- Whether an `Except` computation succeeded. -/
def exOk : Except ε α → Bool
| .ok _ => true
| .error _ => false

/-- Python `int(s)` — raises `ValueError` on anything but an integer literal. -/
def pyInt (s : String) : Except PyErr Int :=
  match (pyStrip s).data with
  | '-' :: ds => match digitsVal ds with
    | some n => .ok (-(n : Int))
    | none => .error .valueError
  | '+' :: ds => match digitsVal ds with
    | some n => .ok (n : Int)
    | none => .error .valueError
  | ds => match digitsVal ds with
    | some n => .ok (n : Int)
    | none => .error .valueError

/-- Python truthiness of an optional string attribute (`if v:`). -/
def optTruthy : Option String → Bool
| some s => !s.data.isEmpty
| none => false

/-! ### Python dict as an insertion-ordered association list -/

def dget [BEq α] : List (α × β) → α → Option β
| [], _ => none
| (k, v) :: d, k' => if k == k' then some v else dget d k'

def dgetD [BEq α] (d : List (α × β)) (k : α) (dflt : β) : β := (dget d k).getD dflt

/-- Python `d[k] = v`: update in place, else append. -/
def dset [BEq α] : List (α × β) → α → β → List (α × β)
| [], k, v => [(k, v)]
| (k', v') :: d, k, v => if k' == k then (k', v) :: d else (k', v') :: dset d k v

def dkeys (d : List (α × β)) : List α := d.map Prod.fst

def dmem [BEq α] (d : List (α × β)) (k : α) : Bool := (dkeys d).contains k

/-- Python `d1 == d2` on dicts (order-insensitive key/value comparison). -/
def deqv [BEq α] [BEq β] (d1 d2 : List (α × β)) : Bool :=
  d1.all (fun kv => dget d2 kv.1 == some kv.2) && d2.all (fun kv => dget d1 kv.1 == some kv.2)

/-- Python `set(l1) == set(l2)`. -/
def setEqv [BEq α] (l1 l2 : List α) : Bool :=
  l1.all (l2.contains ·) && l2.all (l1.contains ·)

/-- Set-union of two key lists keeping first-insertion order. -/
def dedupAux [BEq α] : List α → List α → List α
| [], _ => []
| a :: as, seen => if seen.contains a then dedupAux as seen else a :: dedupAux as (a :: seen)

/-- `list(set(l))`, iterated in first-insertion order. -/
def pySet [BEq α] (l : List α) : List α := dedupAux l []

/-- `set(l1) | set(l2)` iterated in first-insertion order. -/
def setUnion [BEq α] (l1 l2 : List α) : List α := pySet (l1 ++ l2)

/-! ### XML element trees (the `xml.etree.ElementTree` fragment the source uses) -/

inductive Xml where
| mk (tag : String) (attrs : List (String × String)) (children : List Xml) (text : Option String)

def Xml.tag : Xml → String
| .mk t _ _ _ => t

def Xml.attrs : Xml → List (String × String)
| .mk _ a _ _ => a

def Xml.children : Xml → List Xml
| .mk _ _ c _ => c

def Xml.text : Xml → Option String
| .mk _ _ _ t => t

mutual

def Xml.beq : Xml → Xml → Bool
| .mk t1 a1 c1 x1, .mk t2 a2 c2 x2 => t1 == t2 && a1 == a2 && x1 == x2 && Xml.beqList c1 c2

def Xml.beqList : List Xml → List Xml → Bool
| [], [] => true
| a :: as, b :: bs => Xml.beq a b && Xml.beqList as bs
| _, _ => false

end

instance : BEq Xml := ⟨Xml.beq⟩

mutual

def Xml.descendants : Xml → List Xml
| .mk _ _ cs _ => Xml.descList cs

def Xml.descList : List Xml → List Xml
| [] => []
| c :: cs => c :: Xml.descendants c ++ Xml.descList cs

end

/-- `elem.get(a)`. -/
def xGet (e : Xml) (a : String) : Option String := (e.attrs.find? (·.1 == a)).map (·.2)

/-- `elem.get(a, d)`. -/
def xGetD (e : Xml) (a d : String) : String := (xGet e a).getD d

/-- `elem.findall(tag)` — direct children. -/
def xChildrenTag (t : String) (e : Xml) : List Xml := e.children.filter (fun c => c.tag == t)

/-- `elem.findall('.//tag')` — descendants at any depth. -/
def xFindAllDeep (t : String) (e : Xml) : List Xml :=
  (Xml.descendants e).filter (fun c => c.tag == t)

/-- `elem.findall('.//t1/t2')`. -/
def xFindAllDeep2 (t1 t2 : String) (e : Xml) : List Xml :=
  (xFindAllDeep t1 e).flatMap (xChildrenTag t2)

/-- `elem.find('.//tag')`. -/
def xFindDeep (t : String) (e : Xml) : Option Xml := (xFindAllDeep t e).head?

/-- `elem.find('.//t1/t2')`. -/
def xFindDeep2 (t1 t2 : String) (e : Xml) : Option Xml := (xFindAllDeep2 t1 t2 e).head?

/-- Bytes of one package part: either well-formed XML or not. -/
inductive Content where
| xml (tree : Xml)
| bin (bytes : String)

def Content.beq : Content → Content → Bool
| .xml a, .xml b => a == b
| .bin a, .bin b => a == b
| _, _ => false

instance : BEq Content := ⟨Content.beq⟩

/-- `ET.fromstring` — succeeds exactly on well-formed XML bytes. -/
def fromstring : Content → Except PyErr Xml
| .xml t => .ok t
| .bin _ => .error .parseError

/-! ### Namespaces and relationship-type URIs (source: `NS`, `REL_TYPES`) -/

def nsCT : String := "http://schemas.openxmlformats.org/package/2006/content-types"

def nsREL : String := "http://schemas.openxmlformats.org/package/2006/relationships"

def nsP : String := "http://schemas.openxmlformats.org/presentationml/2006/main"

def nsR : String := "http://schemas.openxmlformats.org/officeDocument/2006/relationships"

def nsEP : String := "http://schemas.openxmlformats.org/officeDocument/2006/extended-properties"

/-- Clark-form qualified tag, as ElementTree writes it. -/
def qn (ns loc : String) : String := "\x7b" ++ ns ++ "\x7d" ++ loc

def relTypeSlideMaster : String := nsR ++ "/slideMaster"

def relTypeImage : String := nsR ++ "/image"

def relTypeNotesMaster : String := nsR ++ "/notesMaster"

def relTypeSlide : String := nsR ++ "/slide"

/-! ### Data model -/

/-- One parsed relationship (source `_parse_rels`, lines 104-116).  The Python
dict always carries a `resolved` key; for `External` relationships it holds
the raw target. -/
structure Rel where
  id : String
  type : String
  target : String
  mode : String
  resolved : String
deriving DecidableEq, Repr

/-- One entry of the `invalid_relations` list of an
`INVALID_PRESENTATION_RELS` issue (the display-only `reason` text is not
modelled). -/
structure InvalidRel where
  rid : String
  type : String
  target : String
deriving DecidableEq, Repr

/-- Validator issues: one constructor per `self.issues.append({...})` site,
carrying that dict's structured fields (`msg` texts elided). -/
inductive Issue where
| criticalMissingCT
| xmlError (relsPath : String)
| duplicateRid (source rid : String) (count : Nat)
| brokenRef (source target rid : String)
| missingContentType (part : String)
| missingLayoutRels (part : String)
| layoutNoMaster (part : String)
| duplicateSlideId (ids : List String)
| duplicateMasterId (ids : List String)
| invalidPresentationRels (invalidRelations : List InvalidRel)
| presRelsInvalid (relType : String) (count : Nat) (rids targets : List String)
| sectionInvalidSlideRef (sectionName slideId : String)
| missingNotesmasterRel (rid : String)
| noteslideMissingSlideRef (noteslide rid : String)
| noteslideNoMaster (noteslide : String)
| appSlideCountMismatch (declared : Int) (actual : Nat)
| appNoteCountMismatch (declared : Int) (actual : Nat)
| invalidCommentAuthorsXml
| invalidCommentXml (file : String)
| commentInvalidAuthorId (file authorId : String)
deriving DecidableEq, Repr

/-- The `'type'` field of the Python issue dict. -/
def Issue.ty : Issue → String
| .criticalMissingCT => "CRITICAL"
| .xmlError _ => "ERROR"
| .duplicateRid .. => "DUPLICATE_RID"
| .brokenRef .. => "BROKEN_REF"
| .missingContentType _ => "MISSING_CONTENT_TYPE"
| .missingLayoutRels _ => "MISSING_LAYOUT_RELS"
| .layoutNoMaster _ => "LAYOUT_NO_MASTER"
| .duplicateSlideId _ => "DUPLICATE_SLIDE_ID"
| .duplicateMasterId _ => "DUPLICATE_MASTER_ID"
| .invalidPresentationRels _ => "INVALID_PRESENTATION_RELS"
| .presRelsInvalid t _ _ _ => "PRES_RELS_INVALID_" ++ pyUpper t
| .sectionInvalidSlideRef .. => "SECTION_INVALID_SLIDE_REF"
| .missingNotesmasterRel _ => "MISSING_NOTESMASTER_REL"
| .noteslideMissingSlideRef .. => "NOTESLIDE_MISSING_SLIDE_REF"
| .noteslideNoMaster _ => "NOTESLIDE_NO_MASTER"
| .appSlideCountMismatch .. => "APP_SLIDE_COUNT_MISMATCH"
| .appNoteCountMismatch .. => "APP_NOTE_COUNT_MISMATCH"
| .invalidCommentAuthorsXml => "INVALID_COMMENT_AUTHORS_XML"
| .invalidCommentXml _ => "INVALID_COMMENT_XML"
| .commentInvalidAuthorId .. => "COMMENT_INVALID_AUTHOR_ID"

/-! ### PPTXAnalyzer: model construction -/

/-- `PPTXAnalyzer._load_files` (lines 62-67): the archive entries become the
`files` dict; the fingerprint of a part is modelled by its content. -/
def loadFiles (entries : List (String × Content)) : List (String × Content) :=
  entries.foldl (fun d e => dset d e.1 e.2) []

/-- `PPTXAnalyzer._parse_content_types` (lines 69-84).  Returns
`(content_types, default_types, issues)`.  A malformed manifest raises: the
`ET.fromstring` call there is not wrapped in try/except. -/
def parseContentTypes (files : List (String × Content)) :
    Except PyErr (List (String × String) × List (String × String) × List Issue) :=
  if !dmem files "[Content_Types].xml" then
    .ok ([], [], [Issue.criticalMissingCT])
  else do
    let root ← fromstring (dgetD files "[Content_Types].xml" (.bin ""))
    let defaults := (xChildrenTag (qn nsCT "Default") root).foldl
      (fun d e => dset d (xGetD e "Extension" "") (xGetD e "ContentType" "")) []
    let overrides := (xChildrenTag (qn nsCT "Override") root).foldl
      (fun d e => dset d (pyLStrip '/' (xGetD e "PartName" "")) (xGetD e "ContentType" "")) []
    .ok (overrides, defaults, [])

def pyIndexGo [BEq α] (a : α) : List α → Nat → Option Nat
| [], _ => none
| x :: xs, i => if x == a then some i else pyIndexGo a xs (i + 1)

/-- Python `l.index(a)` as an `Option` (callers turn `none` into the raised
`ValueError`). -/
def pyIndex [BEq α] (l : List α) (a : α) : Option Nat := pyIndexGo a l 0

/-- `PPTXAnalyzer._rels_to_part` (lines 120-129).  `parts.index('_rels')`
raises an uncaught `ValueError` when the path has no `_rels` segment. -/
def relsToPart (relsPath : String) : Except PyErr String :=
  if relsPath == "_rels/.rels" then .ok ""
  else
    let parts := pySplit relsPath '/'
    match pyIndex parts "_rels" with
    | none => .error .valueError
    | some relsIdx =>
      let base := pyJoin '/' (parts.take relsIdx)
      let filename := pyReplace (parts.getLastD "") ".rels" ""
      .ok (if base != "" then base ++ "/" ++ filename else filename)

/-- The segment loop of `_resolve_target` (lines 142-148): `..` pops the last
accumulated segment (a no-op when the accumulator is empty), `.` and empty
segments are dropped, anything else is appended. -/
def normSegs : List String → List String → List String
| [], acc => acc
| p :: ps, acc =>
  if p == ".." then normSegs ps acc.dropLast
  else if p != "" && p != "." then normSegs ps (acc ++ [p])
  else normSegs ps acc

/-- `PPTXAnalyzer._resolve_target` (lines 131-149). -/
def resolveTarget (source target : String) : String :=
  if pyStartsWith target "/" then pyLStrip '/' target
  else if source == "" then target
  else
    let base := pyJoin '/' ((pySplit source '/').dropLast)
    if base == "" then target
    else pyJoin '/' (normSegs (pySplit (base ++ "/" ++ target) '/') [])

/-- `PPTXAnalyzer._parse_rels` (lines 92-118).  Returns the `(source, rels)`
dict entry (`none` when the descriptor is malformed XML, in which case an
ERROR issue is recorded and no entry is made) plus the issues appended. -/
def parseRels (files : List (String × Content)) (relsPath : String) :
    Except PyErr (Option (String × List Rel) × List Issue) :=
  match fromstring (dgetD files relsPath (.bin "")) with
  | .error _ => .ok (none, [Issue.xmlError relsPath])
  | .ok root => do
    let sourcePart ← relsToPart relsPath
    let rels := (xChildrenTag (qn nsREL "Relationship") root).map (fun rel =>
      let rid := xGetD rel "Id" ""
      let rtype := xGetD rel "Type" ""
      let target := xGetD rel "Target" ""
      let mode := xGetD rel "TargetMode" "Internal"
      { id := rid, type := rtype, target := target, mode := mode,
        resolved := if mode != "External" then resolveTarget sourcePart target else target : Rel })
    .ok (some (sourcePart, rels), [])

/-- Loop of `PPTXAnalyzer._parse_all_rels` (lines 86-90) over the remaining
file names, threading the relations dict and the issue list. -/
def parseAllRelsGo (files : List (String × Content)) :
    List (String × Content) → List (String × List Rel) → List Issue →
    Except PyErr (List (String × List Rel) × List Issue)
| [], relations, issues => .ok (relations, issues)
| (name, _) :: rest, relations, issues =>
  if pyEndsWith name ".rels" then
    match parseRels files name with
    | .error e => .error e
    | .ok (none, iss) => parseAllRelsGo files rest relations (issues ++ iss)
    | .ok (some (src, rels), iss) =>
      parseAllRelsGo files rest (dset relations src rels) (issues ++ iss)
  else parseAllRelsGo files rest relations issues

/-- `PPTXAnalyzer._parse_all_rels` (lines 86-90). -/
def parseAllRels (files : List (String × Content)) :
    Except PyErr (List (String × List Rel) × List Issue) :=
  parseAllRelsGo files files [] []

/-- `re.match(r'<pre>\d+<suf>$', s)` for the fixed part-name patterns the
source uses (slide, layout, master, notes-slide, comment files). -/
def matchNumbered (pre suf s : String) : Bool :=
  pyStartsWith s pre && pyEndsWith s suf &&
    (let mid := (s.data.drop pre.data.length).take (s.data.length - pre.data.length - suf.data.length)
     !mid.isEmpty && mid.all Char.isDigit)

/-! ### PPTXAnalyzer: validation -/

/-- The duplicate-`rId` counting dict of lines 157-159. -/
def ridCounts : List Rel → List (String × Nat) → List (String × Nat)
| [], counts => counts
| r :: rs, counts => ridCounts rs (dset counts r.id (dgetD counts r.id 0 + 1))

/-- The `count > 1` test of lines 160-161, as an `Option` producer. -/
def dupOf (source : String) (rc : String × Nat) : Option Issue :=
  if rc.2 > 1 then some (Issue.duplicateRid source rc.1 rc.2) else none

/-- Duplicate-id issues for one source (lines 160-168). -/
def dupRidIssues (source : String) (rels : List Rel) : List Issue :=
  (ridCounts rels []).filterMap (dupOf source)

/-- Broken-reference issues for one source (lines 170-181): External
relationships are skipped, and the check fires only on a truthy (non-empty)
resolved path absent from the part set. -/
def brokenRefIssues (allParts : List String) (source : String) (rels : List Rel) : List Issue :=
  rels.filterMap (fun rel =>
    if rel.mode == "External" then none
    else if !rel.resolved.data.isEmpty && !allParts.contains rel.resolved then
      some (Issue.brokenRef source rel.resolved rel.id)
    else none)

/-- Content_Types coverage check (lines 183-195). -/
def coverageIssues (files : List (String × Content))
    (contentTypes defaultTypes : List (String × String)) : List Issue :=
  (dkeys files).filterMap (fun part =>
    if pyStartsWith part "_rels/" || pyEndsWith part ".rels" then none
    else if part == "[Content_Types].xml" then none
    else
      let ext := if pyIn "." part then (pySplit part '.').getLastD "" else ""
      if !dmem contentTypes part && !dmem defaultTypes ext then
        some (Issue.missingContentType part)
      else none)

/-- `_validate_layout_master_chain` (lines 212-234). -/
def validateLayoutMasterChain (files : List (String × Content))
    (relations : List (String × List Rel)) : List Issue :=
  (dkeys files).flatMap (fun name =>
    if !matchNumbered "ppt/slideLayouts/slideLayout" ".xml" name then []
    else
      let layoutRelsPath := pyReplace name "ppt/slideLayouts/" "ppt/slideLayouts/_rels/" ++ ".rels"
      if !dmem files layoutRelsPath then [Issue.missingLayoutRels name]
      else
        let rels := dgetD relations name []
        if rels.any (fun r => pyIn relTypeSlideMaster r.type) then []
        else [Issue.layoutNoMaster name])

/-- Relationship kinds that must not appear in `presentation.xml.rels`
(source `INVALID_PRES_REL_TYPES`, lines 304-312; the per-kind reason texts
are display-only and elided). -/
def invalidPresRelKinds : List String :=
  ["image", "slideLayout", "notesSlide", "audio", "video", "chart", "oleObject"]

/-- The `by_type` grouping dict of lines 334-338 (insertion-ordered, values
appended in discovery order). -/
def groupInvalidByType : List InvalidRel → List (String × List InvalidRel) →
    List (String × List InvalidRel)
| [], acc => acc
| r :: rs, acc => groupInvalidByType rs (dset acc r.type (dgetD acc r.type [] ++ [r]))

/-- The `invalid_rels` list collected by `_validate_presentation_rels`
(lines 314-324). -/
def invalidPresRelsOf (relations : List (String × List Rel)) : List InvalidRel :=
  (dgetD relations "ppt/presentation.xml" []).filterMap (fun rel =>
    let relTypeName := (pySplit rel.type '/').getLastD ""
    if invalidPresRelKinds.contains relTypeName then
      some { rid := rel.id, type := relTypeName, target := rel.target : InvalidRel }
    else none)

/-- `_validate_presentation_rels` (lines 282-347): one summary issue carrying
every misplaced relationship, then one per-kind aggregate issue. -/
def validatePresentationRels (relations : List (String × List Rel)) : List Issue :=
  let invalidRels := invalidPresRelsOf relations
  if invalidRels.isEmpty then []
  else
    Issue.invalidPresentationRels invalidRels ::
      (groupInvalidByType invalidRels []).map (fun tr =>
        Issue.presRelsInvalid tr.1 tr.2.length (tr.2.map (·.rid)) (tr.2.map (·.target)))

/-- `_validate_sections` (lines 349-382).  The collected `rid` of each
section slide reference is never read by the validation, so only the `id`
values are kept. -/
def validateSections (presRoot : Xml) : List Issue :=
  let sections := (xFindAllDeep2 (qn nsP "sectionLst") (qn nsP "section") presRoot).map
    (fun sect =>
      (xGetD sect "name" "",
       (xFindAllDeep2 (qn nsP "sldIdLst") (qn nsP "sldId") sect).map (fun e => xGet e "id")))
  let allSlideIds := (xFindAllDeep2 (qn nsP "sldIdLst") (qn nsP "sldId") presRoot).filterMap
    (fun sld => match xGet sld "id" with
      | some s => if !s.data.isEmpty then some s else none
      | none => none)
  sections.flatMap (fun sect =>
    sect.2.filterMap (fun idOpt =>
      match idOpt with
      | some i =>
        if !i.data.isEmpty && !allSlideIds.contains i then
          some (Issue.sectionInvalidSlideRef sect.1 i)
        else none
      | none => none))

/-- `_validate_notes_master` (lines 384-398). -/
def validateNotesMaster (relations : List (String × List Rel)) (presRoot : Xml) : List Issue :=
  match xFindDeep2 (qn nsP "notesMasterIdLst") (qn nsP "notesMasterId") presRoot with
  | none => []
  | some nm =>
    match xGet nm (qn nsR "id") with
    | some rid =>
      if !rid.data.isEmpty then
        let rels := dgetD relations "ppt/presentation.xml" []
        if rels.any (fun r => r.id == rid) then [] else [Issue.missingNotesmasterRel rid]
      else []
    | none => []

/-- `_validate_presentation_ids` (lines 236-280), including its calls to
`_validate_presentation_rels`, `_validate_sections` and
`_validate_notes_master`; all are skipped when `ppt/presentation.xml` is
absent or malformed. -/
def validatePresentationIds (files : List (String × Content))
    (relations : List (String × List Rel)) : List Issue :=
  if !dmem files "ppt/presentation.xml" then []
  else
    match fromstring (dgetD files "ppt/presentation.xml" (.bin "")) with
    | .error _ => []
    | .ok root =>
      let slideIds := (xFindAllDeep2 (qn nsP "sldIdLst") (qn nsP "sldId") root).filterMap
        (fun sld => match xGet sld "id" with
          | some s => if !s.data.isEmpty then some s else none
          | none => none)
      let dupSlide := slideIds.filter (fun s => slideIds.count s > 1)
      let slideIssues :=
        if !dupSlide.isEmpty then [Issue.duplicateSlideId (pySet dupSlide)] else []
      let masterIds := (xFindAllDeep2 (qn nsP "sldMasterIdLst") (qn nsP "sldMasterId") root).filterMap
        (fun sm => match xGet sm "id" with
          | some s => if !s.data.isEmpty then some s else none
          | none => none)
      let dupMaster := masterIds.filter (fun m => masterIds.count m > 1)
      let masterIssues :=
        if !dupMaster.isEmpty then [Issue.duplicateMasterId (pySet dupMaster)] else []
      slideIssues ++ masterIssues ++ validatePresentationRels relations ++
        validateSections root ++ validateNotesMaster relations root

/-- `_validate_noteslides` (lines 400-435). -/
def validateNoteslides (files : List (String × Content))
    (relations : List (String × List Rel)) : List Issue :=
  (dkeys files).flatMap (fun name =>
    if !matchNumbered "ppt/notesSlides/notesSlide" ".xml" name then []
    else
      match fromstring (dgetD files name (.bin "")) with
      | .error _ => []
      | .ok root =>
        let slideRefIssues :=
          match xFindDeep (qn nsP "clrMapOvr") root with
          | none => []
          | some clr =>
            match xGet clr (qn nsR "id") with
            | some slideRef =>
              if !slideRef.data.isEmpty then
                let rels := dgetD relations name []
                if rels.any (fun r => r.id == slideRef && pyIn "slide" r.type) then []
                else [Issue.noteslideMissingSlideRef name slideRef]
              else []
            | none => []
        let rels := dgetD relations name []
        let masterIssues :=
          if rels.any (fun r => pyIn "notesMaster" r.type) then []
          else [Issue.noteslideNoMaster name]
        slideRefIssues ++ masterIssues)

/-- `int(elem.text) if elem is not None and elem.text else 0` (lines 451-452
and 587-589); the uncaught `ValueError` of `int` propagates. -/
def elemInt : Option Xml → Except PyErr Int
| some e => match e.text with
  | some t => if !t.data.isEmpty then pyInt t else .ok 0
  | none => .ok 0
| none => .ok 0

/-- `_validate_app_properties` (lines 437-472).  `int(...)` on a non-numeric
declared count raises an uncaught `ValueError`. -/
def validateAppProperties (files : List (String × Content)) : Except PyErr (List Issue) :=
  if !dmem files "docProps/app.xml" then .ok []
  else
    match fromstring (dgetD files "docProps/app.xml" (.bin "")) with
    | .error _ => .ok []
    | .ok root => do
      let declaredSlides ← elemInt (xFindDeep (qn nsEP "Slides") root)
      let declaredNotes ← elemInt (xFindDeep (qn nsEP "Notes") root)
      let actualSlides := ((dkeys files).filter (matchNumbered "ppt/slides/slide" ".xml")).length
      let actualNotes :=
        ((dkeys files).filter (matchNumbered "ppt/notesSlides/notesSlide" ".xml")).length
      let slideIss := if declaredSlides != (actualSlides : Int) then
        [Issue.appSlideCountMismatch declaredSlides actualSlides] else []
      let noteIss := if declaredNotes != (actualNotes : Int) then
        [Issue.appNoteCountMismatch declaredNotes actualNotes] else []
      .ok (slideIss ++ noteIss)

/-- `_validate_comments` (lines 474-518).  Note the early `return` after a
malformed `commentAuthors.xml`: the per-slide comment files are then not
checked at all; and when `ppt/commentAuthors.xml` is absent nothing is
checked. -/
def validateComments (files : List (String × Content)) : List Issue :=
  if !dmem files "ppt/commentAuthors.xml" then []
  else
    match fromstring (dgetD files "ppt/commentAuthors.xml" (.bin "")) with
    | .error _ => [Issue.invalidCommentAuthorsXml]
    | .ok root =>
      let authorIds := (xFindAllDeep (qn nsP "cmAuthor") root).filterMap (fun a =>
        match xGet a "id" with
        | some i => if !i.data.isEmpty then some i else none
        | none => none)
      (dkeys files).flatMap (fun name =>
        if !matchNumbered "ppt/comments/comment" ".xml" name then []
        else
          match fromstring (dgetD files name (.bin "")) with
          | .error _ => [Issue.invalidCommentXml name]
          | .ok croot =>
            (xFindAllDeep (qn nsP "cm") croot).filterMap (fun cm =>
              match xGet cm "authorId" with
              | some aid =>
                if !aid.data.isEmpty && !authorIds.contains aid then
                  some (Issue.commentInvalidAuthorId name aid)
                else none
              | none => none))

/-- `_validate_references` (lines 151-210) with all its sub-validations, in
source order. -/
def validateReferences (files : List (String × Content))
    (contentTypes defaultTypes : List (String × String))
    (relations : List (String × List Rel)) : Except PyErr (List Issue) := do
  let allParts := dkeys files
  let refIssues := relations.flatMap (fun sr =>
    dupRidIssues sr.1 sr.2 ++ brokenRefIssues allParts sr.1 sr.2)
  let appIssues ← validateAppProperties files
  .ok (refIssues ++ coverageIssues files contentTypes defaultTypes ++
    validateLayoutMasterChain files relations ++
    validatePresentationIds files relations ++
    validateNoteslides files relations ++
    appIssues ++ validateComments files)

/-- The completed package model: a `PPTXAnalyzer` after `analyze()`.  The
hash table is the files table itself (fingerprints are modelled by
contents). -/
structure AState where
  files : List (String × Content)
  contentTypes : List (String × String)
  defaultTypes : List (String × String)
  relations : List (String × List Rel)
  issues : List Issue

/-- `PPTXAnalyzer.analyze` (lines 54-60) on an opened archive entry list.
An uncaught exception in any phase aborts the whole analysis. -/
def analyze (entries : List (String × Content)) : Except PyErr AState := do
  let files := loadFiles entries
  let (contentTypes, defaultTypes, ctIssues) ← parseContentTypes files
  let (relations, relIssues) ← parseAllRels files
  let vIssues ← validateReferences files contentTypes defaultTypes relations
  .ok { files := files, contentTypes := contentTypes, defaultTypes := defaultTypes,
        relations := relations, issues := ctIssues ++ relIssues ++ vIssues }

/-! ### PPTXAnalyzer: data extraction used by the comparator -/

/-- One section of `get_presentation_data` (lines 557-566). -/
structure SectionData where
  name : String
  id : String
  slideIds : List (Option String)
deriving DecidableEq, Repr

/-- Result of `get_presentation_data` (lines 520-568); id/rid pairs. -/
structure PresData where
  slideIdList : List (Option String × Option String)
  slideMasterIdList : List (Option String × Option String)
  notesMasterIdList : List (Option String × Option String)
  sections : List SectionData
deriving DecidableEq, Repr

/-- `get_presentation_data` (lines 520-568). -/
def getPresentationData (st : AState) : PresData :=
  if !dmem st.files "ppt/presentation.xml" then ⟨[], [], [], []⟩
  else
    match fromstring (dgetD st.files "ppt/presentation.xml" (.bin "")) with
    | .error _ => ⟨[], [], [], []⟩
    | .ok root =>
      { slideIdList := (xFindAllDeep2 (qn nsP "sldIdLst") (qn nsP "sldId") root).map
          (fun e => (xGet e "id", xGet e (qn nsR "id")))
        slideMasterIdList :=
          (xFindAllDeep2 (qn nsP "sldMasterIdLst") (qn nsP "sldMasterId") root).map
            (fun e => (xGet e "id", xGet e (qn nsR "id")))
        notesMasterIdList :=
          (xFindAllDeep2 (qn nsP "notesMasterIdLst") (qn nsP "notesMasterId") root).map
            (fun e => (xGet e "id", xGet e (qn nsR "id")))
        sections := (xFindAllDeep2 (qn nsP "sectionLst") (qn nsP "section") root).map
          (fun sect =>
            { name := xGetD sect "name" "", id := xGetD sect "id" "",
              slideIds := (xFindAllDeep2 (qn nsP "sldIdLst") (qn nsP "sldId") sect).map
                (fun e => xGet e "id") }) }

/-- Result of `get_app_properties` (lines 570-591). -/
structure AppProps where
  slides : Int
  notes : Int
  hiddenSlides : Int
deriving DecidableEq, Repr

/-- `get_app_properties` (lines 570-591). -/
def getAppProperties (st : AState) : Except PyErr AppProps :=
  if !dmem st.files "docProps/app.xml" then .ok ⟨0, 0, 0⟩
  else
    match fromstring (dgetD st.files "docProps/app.xml" (.bin "")) with
    | .error _ => .ok ⟨0, 0, 0⟩
    | .ok root => do
      let s ← elemInt (xFindDeep (qn nsEP "Slides") root)
      let n ← elemInt (xFindDeep (qn nsEP "Notes") root)
      let h ← elemInt (xFindDeep (qn nsEP "HiddenSlides") root)
      .ok ⟨s, n, h⟩

/-- `get_noteslides_data` (lines 593-614): per notes-slide part, the resolved
slide target and notes-master target. -/
def getNoteslidesData (st : AState) : List (String × (Option String × Option String)) :=
  (dkeys st.files).filterMap (fun name =>
    if !matchNumbered "ppt/notesSlides/notesSlide" ".xml" name then none
    else
      match fromstring (dgetD st.files name (.bin "")) with
      | .error _ => none
      | .ok _ =>
        let rels := dgetD st.relations name []
        let slideRel := rels.find? (fun r => pyIn "slide" r.type && r.mode != "External")
        let masterRel := rels.find? (fun r => pyIn "notesMaster" r.type)
        some (name, (slideRel.map (·.resolved), masterRel.map (·.resolved))))

/-- One comment record of `get_comments_data` (lines 643-648). -/
structure CommentRec where
  authorId : Option String
  dt : Option String
  idx : Option String
deriving DecidableEq, Repr

/-- Result of `get_comments_data` (lines 616-653); an author record is its
(id, name, initials) triple. -/
structure CommentsData where
  authors : List (Option String × Option String × Option String)
  comments : List (String × List CommentRec)
deriving DecidableEq, Repr

/-- `get_comments_data` (lines 616-653).  A comment file that fails to parse
is silently absent from the comments dict (`except: pass`). -/
def getCommentsData (st : AState) : CommentsData :=
  let authors :=
    if !dmem st.files "ppt/commentAuthors.xml" then []
    else
      match fromstring (dgetD st.files "ppt/commentAuthors.xml" (.bin "")) with
      | .error _ => []
      | .ok root => (xFindAllDeep (qn nsP "cmAuthor") root).map
          (fun a => (xGet a "id", xGet a "name", xGet a "initials"))
  let comments := (dkeys st.files).filterMap (fun name =>
    if !matchNumbered "ppt/comments/comment" ".xml" name then none
    else
      match fromstring (dgetD st.files name (.bin "")) with
      | .error _ => none
      | .ok root => some (name, (xFindAllDeep (qn nsP "cm") root).map
          (fun cm =>
            { authorId := xGet cm "authorId", dt := xGet cm "dt",
              idx := xGet cm "idx" : CommentRec })))
  { authors := authors, comments := comments }

/-- `get_hash_map` (lines 655-660): fingerprint → list of file names. -/
def getHashMap (st : AState) : List (Content × List String) :=
  st.files.foldl (fun hm nc => dset hm nc.2 (dgetD hm nc.2 [] ++ [nc.1])) []

/-! ### PPTXComparator -/

/-- Comparator diffs: one constructor per `self.diffs.append({...})` site,
carrying that dict's structured fields (`msg` texts elided).  The severity is
a fixed string per site except for `PRES_RELS_TYPE_COUNT_CHANGED`, whose
computed severity is carried as a field. -/
inductive Diff where
| fileRemoved (file : String)
| fileAdded (file : String)
| contentTypeRemoved (part : String)
| contentTypeChanged (part corrupt repaired : String)
| relationRemoved (source rid target : String)
| relationTargetChanged (source rid corruptTarget repairedTarget : String)
| slideIdListChanged (corrupt repaired : List (Option String × Option String))
| presRelsTypeCountChanged (relType severity : String) (corruptCount repairedCount : Nat)
    (corruptTargets repairedTargets : List String)
| presRelsTotalCountChanged (corruptCount repairedCount : Nat)
| sectionRemoved (sectionName : String)
| sectionAdded (sectionName : String)
| sectionSlidesChanged (sectionName : String) (corruptSlides repairedSlides : List (Option String))
| noteslideRemoved (noteslide : String)
| noteslideAdded (noteslide : String)
| noteslideSlideRefChanged (noteslide : String) (corruptSlide repairedSlide : Option String)
| noteslideMasterRefChanged (noteslide : String) (corruptMaster repairedMaster : Option String)
| appSlideCountChanged (corrupt repaired : Int)
| appNoteCountChanged (corrupt repaired : Int)
| appHiddenSlideCountChanged (corrupt repaired : Int)
| commentAuthorsChanged (corrupt repaired : List String)
| commentFileRemoved (file : String)
| commentFileAdded (file : String)
| commentCountChanged (file : String) (corrupt repaired : Nat)
| xmlContentChanged (file : String) (corruptHash repairedHash : Content)
| slideClrmapovrRidChanged (file : String) (corruptRid repairedRid : Option String)
| slideShapeCountChanged (file : String) (corrupt repaired : Nat)
| slidemasterLayoutCountChanged (file : String) (corrupt repaired : Nat)
| slidelayoutTypeChanged (file : String) (corrupt repaired : String)
| renamedIdenticalContent (hash : Content) (corruptFiles repairedFiles : List String)

/-- The `'type'` field of the Python diff dict. -/
def Diff.ty : Diff → String
| .fileRemoved _ => "FILE_REMOVED"
| .fileAdded _ => "FILE_ADDED"
| .contentTypeRemoved _ => "CONTENT_TYPE_REMOVED"
| .contentTypeChanged .. => "CONTENT_TYPE_CHANGED"
| .relationRemoved .. => "RELATION_REMOVED"
| .relationTargetChanged .. => "RELATION_TARGET_CHANGED"
| .slideIdListChanged .. => "SLIDE_ID_LIST_CHANGED"
| .presRelsTypeCountChanged .. => "PRES_RELS_TYPE_COUNT_CHANGED"
| .presRelsTotalCountChanged .. => "PRES_RELS_TOTAL_COUNT_CHANGED"
| .sectionRemoved _ => "SECTION_REMOVED"
| .sectionAdded _ => "SECTION_ADDED"
| .sectionSlidesChanged .. => "SECTION_SLIDES_CHANGED"
| .noteslideRemoved _ => "NOTESLIDE_REMOVED"
| .noteslideAdded _ => "NOTESLIDE_ADDED"
| .noteslideSlideRefChanged .. => "NOTESLIDE_SLIDE_REF_CHANGED"
| .noteslideMasterRefChanged .. => "NOTESLIDE_MASTER_REF_CHANGED"
| .appSlideCountChanged .. => "APP_SLIDE_COUNT_CHANGED"
| .appNoteCountChanged .. => "APP_NOTE_COUNT_CHANGED"
| .appHiddenSlideCountChanged .. => "APP_HIDDEN_SLIDE_COUNT_CHANGED"
| .commentAuthorsChanged .. => "COMMENT_AUTHORS_CHANGED"
| .commentFileRemoved _ => "COMMENT_FILE_REMOVED"
| .commentFileAdded _ => "COMMENT_FILE_ADDED"
| .commentCountChanged .. => "COMMENT_COUNT_CHANGED"
| .xmlContentChanged .. => "XML_CONTENT_CHANGED"
| .slideClrmapovrRidChanged .. => "SLIDE_CLRMAPOVR_RID_CHANGED"
| .slideShapeCountChanged .. => "SLIDE_SHAPE_COUNT_CHANGED"
| .slidemasterLayoutCountChanged .. => "SLIDEMASTER_LAYOUT_COUNT_CHANGED"
| .slidelayoutTypeChanged .. => "SLIDELAYOUT_TYPE_CHANGED"
| .renamedIdenticalContent .. => "RENAMED_IDENTICAL_CONTENT"

/-- The `'severity'` field of the Python diff dict. -/
def Diff.severity : Diff → String
| .fileRemoved _ => "HIGH"
| .fileAdded _ => "MEDIUM"
| .contentTypeRemoved _ => "HIGH"
| .contentTypeChanged .. => "MEDIUM"
| .relationRemoved .. => "HIGH"
| .relationTargetChanged .. => "HIGH"
| .slideIdListChanged .. => "CRITICAL"
| .presRelsTypeCountChanged _ sev _ _ _ _ => sev
| .presRelsTotalCountChanged .. => "HIGH"
| .sectionRemoved _ => "HIGH"
| .sectionAdded _ => "MEDIUM"
| .sectionSlidesChanged .. => "HIGH"
| .noteslideRemoved _ => "HIGH"
| .noteslideAdded _ => "MEDIUM"
| .noteslideSlideRefChanged .. => "CRITICAL"
| .noteslideMasterRefChanged .. => "HIGH"
| .appSlideCountChanged .. => "HIGH"
| .appNoteCountChanged .. => "HIGH"
| .appHiddenSlideCountChanged .. => "MEDIUM"
| .commentAuthorsChanged .. => "MEDIUM"
| .commentFileRemoved _ => "MEDIUM"
| .commentFileAdded _ => "LOW"
| .commentCountChanged .. => "MEDIUM"
| .xmlContentChanged .. => "MEDIUM"
| .slideClrmapovrRidChanged .. => "HIGH"
| .slideShapeCountChanged .. => "LOW"
| .slidemasterLayoutCountChanged .. => "HIGH"
| .slidelayoutTypeChanged .. => "HIGH"
| .renamedIdenticalContent .. => "INFO"

/-- `_compare_file_lists` (lines 685-707): set difference of the two name
sets, removals first. -/
def compareFileLists (c r : AState) : List Diff :=
  let cFiles := dkeys c.files
  let rFiles := dkeys r.files
  (cFiles.filter (fun f => !rFiles.contains f)).map Diff.fileRemoved ++
    (rFiles.filter (fun f => !cFiles.contains f)).map Diff.fileAdded

/-- `_compare_content_types` (lines 709-730): iterates only the corrupt
table — an override present only in the repaired package yields nothing. -/
def compareContentTypes (c r : AState) : List Diff :=
  c.contentTypes.flatMap (fun pc =>
    match dget r.contentTypes pc.1 with
    | none => [Diff.contentTypeRemoved pc.1]
    | some rc => if rc != pc.2 then [Diff.contentTypeChanged pc.1 pc.2 rc] else [])

/-- `{r['id']: r for r in rels}` (lines 740-741). -/
def relById (rels : List Rel) : List (String × Rel) :=
  rels.foldl (fun d r => dset d r.id r) []

/-- `_compare_relations` (lines 732-762): iterates corrupt-side ids only —
a relationship present only in the repaired package yields nothing. -/
def compareRelations (c r : AState) : List Diff :=
  let allSources := setUnion (dkeys c.relations) (dkeys r.relations)
  allSources.flatMap (fun source =>
    let cRelMap := relById (dgetD c.relations source [])
    let rRelMap := relById (dgetD r.relations source [])
    cRelMap.flatMap (fun rr =>
      match dget rRelMap rr.1 with
      | none => [Diff.relationRemoved source rr.1 rr.2.target]
      | some rRel =>
        if rRel.target != rr.2.target then
          [Diff.relationTargetChanged source rr.1 rr.2.target rRel.target]
        else []))

/-- The `group_by_type` helper of `_compare_presentation_rels_detailed`
(lines 790-797). -/
def groupRelsByType : List Rel → List (String × List Rel) → List (String × List Rel)
| [], acc => acc
| r :: rs, acc =>
  let t := (pySplit r.type '/').getLastD ""
  groupRelsByType rs (dset acc t (dgetD acc t [] ++ [r]))

/-- `_compare_presentation_rels_detailed` (lines 784-829). -/
def comparePresentationRelsDetailed (c r : AState) : List Diff :=
  let cRels := dgetD c.relations "ppt/presentation.xml" []
  let rRels := dgetD r.relations "ppt/presentation.xml" []
  let cByType := groupRelsByType cRels []
  let rByType := groupRelsByType rRels []
  let allTypes := setUnion (dkeys cByType) (dkeys rByType)
  let typeDiffs := allTypes.flatMap (fun relType =>
    let cCount := (dgetD cByType relType []).length
    let rCount := (dgetD rByType relType []).length
    if cCount != rCount then
      let severity :=
        if ["image", "slideLayout", "notesSlide"].contains relType then "CRITICAL" else "HIGH"
      [Diff.presRelsTypeCountChanged relType severity cCount rCount
        ((dgetD cByType relType []).map (·.target)) ((dgetD rByType relType []).map (·.target))]
    else [])
  let totalDiffs :=
    if cRels.length != rRels.length then
      [Diff.presRelsTotalCountChanged cRels.length rRels.length]
    else []
  typeDiffs ++ totalDiffs

/-- `_compare_presentation_xml` (lines 764-782); the rid → id dicts are
compared with Python dict equality (order-insensitive). -/
def comparePresentationXml (c r : AState) : List Diff :=
  let cData := getPresentationData c
  let rData := getPresentationData r
  let cSlides := cData.slideIdList.foldl (fun d s => dset d s.2 s.1) []
  let rSlides := rData.slideIdList.foldl (fun d s => dset d s.2 s.1) []
  (if !deqv cSlides rSlides then [Diff.slideIdListChanged cSlides rSlides] else []) ++
    comparePresentationRelsDetailed c r

/-- `{s['name']: s for s in sections}` (lines 836-837). -/
def sectionsByName (l : List SectionData) : List (String × SectionData) :=
  l.foldl (fun d s => dset d s.name s) []

/-- `_compare_sections` (lines 831-872). -/
def compareSections (c r : AState) : List Diff :=
  let cSections := sectionsByName (getPresentationData c).sections
  let rSections := sectionsByName (getPresentationData r).sections
  (dkeys cSections).filterMap (fun name =>
    if !dmem rSections name then some (Diff.sectionRemoved name) else none) ++
  (dkeys rSections).filterMap (fun name =>
    if !dmem cSections name then some (Diff.sectionAdded name) else none) ++
  cSections.filterMap (fun ns =>
    match dget rSections ns.1 with
    | some rs =>
      if !setEqv ns.2.slideIds rs.slideIds then
        some (Diff.sectionSlidesChanged ns.1 (pySet ns.2.slideIds) (pySet rs.slideIds))
      else none
    | none => none)

/-- `_compare_noteslides` (lines 874-924). -/
def compareNoteslides (c r : AState) : List Diff :=
  let cNotes := getNoteslidesData c
  let rNotes := getNoteslidesData r
  let cNames := dkeys cNotes
  let rNames := dkeys rNotes
  (cNames.filter (fun n => !rNames.contains n)).map Diff.noteslideRemoved ++
  (rNames.filter (fun n => !cNames.contains n)).map Diff.noteslideAdded ++
  (cNames.filter (fun n => rNames.contains n)).flatMap (fun name =>
    let cd := dgetD cNotes name (none, none)
    let rd := dgetD rNotes name (none, none)
    (if cd.1 != rd.1 then [Diff.noteslideSlideRefChanged name cd.1 rd.1] else []) ++
    (if cd.2 != rd.2 then [Diff.noteslideMasterRefChanged name cd.2 rd.2] else []))

/-- `_compare_app_properties` (lines 926-956); `get_app_properties` can raise
on a non-numeric declared count. -/
def compareAppProperties (c r : AState) : Except PyErr (List Diff) := do
  let cProps ← getAppProperties c
  let rProps ← getAppProperties r
  .ok ((if cProps.slides != rProps.slides then
          [Diff.appSlideCountChanged cProps.slides rProps.slides] else []) ++
    (if cProps.notes != rProps.notes then
          [Diff.appNoteCountChanged cProps.notes rProps.notes] else []) ++
    (if cProps.hiddenSlides != rProps.hiddenSlides then
          [Diff.appHiddenSlideCountChanged cProps.hiddenSlides rProps.hiddenSlides] else []))

/-- `_compare_comments` (lines 958-1007). -/
def compareComments (c r : AState) : List Diff :=
  let cComments := getCommentsData c
  let rComments := getCommentsData r
  let cAuthorIds := pySet (cComments.authors.filterMap (fun a =>
    a.1.bind (fun s => if !s.data.isEmpty then some s else none)))
  let rAuthorIds := pySet (rComments.authors.filterMap (fun a =>
    a.1.bind (fun s => if !s.data.isEmpty then some s else none)))
  let authorDiffs :=
    if !setEqv cAuthorIds rAuthorIds then [Diff.commentAuthorsChanged cAuthorIds rAuthorIds]
    else []
  let cFiles := dkeys cComments.comments
  let rFiles := dkeys rComments.comments
  authorDiffs ++
  (cFiles.filter (fun f => !rFiles.contains f)).map Diff.commentFileRemoved ++
  (rFiles.filter (fun f => !cFiles.contains f)).map Diff.commentFileAdded ++
  (cFiles.filter (fun f => rFiles.contains f)).filterMap (fun file =>
    let cCount := (dgetD cComments.comments file []).length
    let rCount := (dgetD rComments.comments file []).length
    if cCount != rCount then some (Diff.commentCountChanged file cCount rCount) else none)

/-- `_compare_slide_xml` (lines 1039-1075). -/
def compareSlideXml (c r : AState) (filename : String) : List Diff :=
  match fromstring (dgetD c.files filename (.bin "")),
        fromstring (dgetD r.files filename (.bin "")) with
  | .ok cRoot, .ok rRoot =>
    let clrDiffs :=
      match xFindDeep (qn nsP "clrMapOvr") cRoot, xFindDeep (qn nsP "clrMapOvr") rRoot with
      | some cClr, some rClr =>
        let cRid := xGet cClr (qn nsR "id")
        let rRid := xGet rClr (qn nsR "id")
        if cRid != rRid then [Diff.slideClrmapovrRidChanged filename cRid rRid] else []
      | _, _ => []
    let cShapes := (xFindAllDeep (qn nsP "sp") cRoot).length
    let rShapes := (xFindAllDeep (qn nsP "sp") rRoot).length
    clrDiffs ++
      (if cShapes != rShapes then [Diff.slideShapeCountChanged filename cShapes rShapes] else [])
  | _, _ => []

/-- `_compare_slidemaster_xml` (lines 1077-1097). -/
def compareSlidemasterXml (c r : AState) (filename : String) : List Diff :=
  match fromstring (dgetD c.files filename (.bin "")),
        fromstring (dgetD r.files filename (.bin "")) with
  | .ok cRoot, .ok rRoot =>
    let cL := (xFindAllDeep2 (qn nsP "sldLayoutIdLst") (qn nsP "sldLayoutId") cRoot).length
    let rL := (xFindAllDeep2 (qn nsP "sldLayoutIdLst") (qn nsP "sldLayoutId") rRoot).length
    if cL != rL then [Diff.slidemasterLayoutCountChanged filename cL rL] else []
  | _, _ => []

/-- `_compare_slidelayout_xml` (lines 1099-1119). -/
def compareSlidelayoutXml (c r : AState) (filename : String) : List Diff :=
  match fromstring (dgetD c.files filename (.bin "")),
        fromstring (dgetD r.files filename (.bin "")) with
  | .ok cRoot, .ok rRoot =>
    let cType := xGetD cRoot "type" ""
    let rType := xGetD rRoot "type" ""
    if cType != rType then [Diff.slidelayoutTypeChanged filename cType rType] else []
  | _, _ => []

/-- `_compare_xml_content` (lines 1009-1037). -/
def compareXmlContent (c r : AState) : List Diff :=
  let common := (dkeys c.files).filter (fun f => (dkeys r.files).contains f)
  let xmlFiles := common.filter (fun f => pyEndsWith f ".xml")
  xmlFiles.flatMap (fun f =>
    let cHash := dgetD c.files f (.bin "")
    let rHash := dgetD r.files f (.bin "")
    if cHash != rHash then
      if matchNumbered "ppt/slides/slide" ".xml" f then compareSlideXml c r f
      else if matchNumbered "ppt/slideMasters/slideMaster" ".xml" f then
        compareSlidemasterXml c r f
      else if matchNumbered "ppt/slideLayouts/slideLayout" ".xml" f then
        compareSlidelayoutXml c r f
      else if f == "ppt/presentation.xml" then []
      else [Diff.xmlContentChanged f cHash rHash]
    else [])

/-- `_detect_hash_matches` (lines 1121-1137). -/
def detectHashMatches (c r : AState) : List Diff :=
  let cHashes := getHashMap c
  let rHashes := getHashMap r
  cHashes.flatMap (fun hc =>
    match dget rHashes hc.1 with
    | some rFiles =>
      if !setEqv hc.2 rFiles then [Diff.renamedIdenticalContent hc.1 hc.2 rFiles] else []
    | none => [])

/-- `PPTXComparator.compare` (lines 671-683): all sub-comparisons in source
order.  Only the app-properties comparison can raise; the uncaught exception
discards the whole comparison. -/
def compare (c r : AState) : Except PyErr (List Diff) := do
  let appDiffs ← compareAppProperties c r
  .ok (compareFileLists c r ++ compareContentTypes c r ++ compareRelations c r ++
    comparePresentationXml c r ++ compareSections c r ++ compareNoteslides c r ++
    appDiffs ++ compareComments c r ++ compareXmlContent c r ++ detectHashMatches c r)

/-! ### Hypothesis generator -/

/-- Root-cause hypotheses (`_generate_hypotheses`, lines 1269-1407): one
constructor per rule, carrying the structured data its evidence text
interpolates (the constant title/evidence/fix texts are elided). -/
inductive Hyp where
| duplicateRids (count : Nat) (rids : List String)
| duplicateIds (count : Nat)
| layoutsNoMaster (count : Nat) (parts : List String)
| orphanParts (count : Nat) (files : List String)
| brokenRelations (count : Nat)
| invalidRelationsStructure (count : Nat)
| inconsistentSlideIdList
| noteslideRefIssues (issueCount diffCount : Nat)
| sectionRefIssues (issueCount diffCount : Nat)
| appPropsMismatch (issueCount diffCount : Nat)
| notesmasterIssues (count : Nat)
| misplacedRels (count : Nat) (types : List String)
| fallback
deriving DecidableEq, Repr

/-- `i['rid']`, read only on DUPLICATE_RID issues (line 1278). -/
def Issue.ridField : Issue → String
| .duplicateRid _ r _ => r
| _ => ""

/-- `i['part']`, read only on LAYOUT_NO_MASTER issues (line 1296). -/
def Issue.partField : Issue → String
| .layoutNoMaster p => p
| _ => ""

/-- `d['file']`, read only on FILE_REMOVED diffs (line 1305). -/
def Diff.fileField : Diff → String
| .fileRemoved f => f
| _ => ""

/-- `_generate_hypotheses` (lines 1269-1407). -/
def generateHypotheses (issues : List Issue) (diffs : List Diff) : List Hyp :=
  let dupRids := issues.filter (fun i => i.ty == "DUPLICATE_RID")
  let h1 := if !dupRids.isEmpty then
    [Hyp.duplicateRids dupRids.length ((dupRids.take 3).map Issue.ridField)] else []
  let dupIds := issues.filter (fun i =>
    i.ty == "DUPLICATE_SLIDE_ID" || i.ty == "DUPLICATE_MASTER_ID")
  let h2 := if !dupIds.isEmpty then [Hyp.duplicateIds dupIds.length] else []
  let noMaster := issues.filter (fun i => i.ty == "LAYOUT_NO_MASTER")
  let h3 := if !noMaster.isEmpty then
    [Hyp.layoutsNoMaster noMaster.length ((noMaster.take 3).map Issue.partField)] else []
  let orphans := diffs.filter (fun d => d.ty == "FILE_REMOVED")
  let h4 := if !orphans.isEmpty then
    [Hyp.orphanParts orphans.length ((orphans.take 5).map Diff.fileField)] else []
  let broken := issues.filter (fun i => i.ty == "BROKEN_REF")
  let h5 := if !broken.isEmpty then [Hyp.brokenRelations broken.length] else []
  let relChanges := diffs.filter (fun d => pyIn "RELATION" d.ty)
  let h6 := if !relChanges.isEmpty then [Hyp.invalidRelationsStructure relChanges.length] else []
  let slideIssues := diffs.filter (fun d => d.ty == "SLIDE_ID_LIST_CHANGED")
  let h7 := if !slideIssues.isEmpty then [Hyp.inconsistentSlideIdList] else []
  let noteslideIssues := issues.filter (fun i => pyIn "NOTESLIDE" i.ty)
  let noteslideDiffs := diffs.filter (fun d =>
    pyIn "NOTESLIDE" d.ty && (d.severity == "CRITICAL" || d.severity == "HIGH"))
  let h8 := if !noteslideIssues.isEmpty || !noteslideDiffs.isEmpty then
    [Hyp.noteslideRefIssues noteslideIssues.length noteslideDiffs.length] else []
  let sectionIssues := issues.filter (fun i => pyIn "SECTION" i.ty)
  let sectionDiffs := diffs.filter (fun d =>
    pyIn "SECTION" d.ty && (d.severity == "CRITICAL" || d.severity == "HIGH"))
  let h9 := if !sectionIssues.isEmpty || !sectionDiffs.isEmpty then
    [Hyp.sectionRefIssues sectionIssues.length sectionDiffs.length] else []
  let appIssues := issues.filter (fun i => pyIn "APP_" i.ty)
  let appDiffs := diffs.filter (fun d =>
    pyIn "APP_" d.ty && (d.severity == "CRITICAL" || d.severity == "HIGH"))
  let h10 := if !appIssues.isEmpty || !appDiffs.isEmpty then
    [Hyp.appPropsMismatch appIssues.length appDiffs.length] else []
  let notesmaster := issues.filter (fun i => pyIn "NOTESMASTER" i.ty)
  let h11 := if !notesmaster.isEmpty then [Hyp.notesmasterIssues notesmaster.length] else []
  let base := h1 ++ h2 ++ h3 ++ h4 ++ h5 ++ h6 ++ h7 ++ h8 ++ h9 ++ h10 ++ h11
  let invalidPresRels := issues.filter (fun i =>
    pyIn "PRES_RELS_INVALID" i.ty || i.ty == "INVALID_PRESENTATION_RELS")
  let presRelsDiffs := diffs.filter (fun d =>
    pyIn "PRES_RELS_TYPE_COUNT" d.ty && d.severity == "CRITICAL")
  let withMisplaced :=
    if !invalidPresRels.isEmpty || !presRelsDiffs.isEmpty then
      let fromIssues := invalidPresRels.flatMap (fun i =>
        match i with
        | .invalidPresentationRels inv => inv.map (·.type)
        | _ => [])
      let fromDiffs := presRelsDiffs.filterMap (fun d =>
        match d with
        | .presRelsTypeCountChanged t _ cc rc _ _ => if cc > rc then some t else none
        | _ => none)
      Hyp.misplacedRels invalidPresRels.length (pySet (fromIssues ++ fromDiffs)) :: base
    else base
  if withMisplaced.isEmpty then [Hyp.fallback] else withMisplaced

/-! ### Concrete packages used by the theorems -/

/-- A content-type manifest declaring Defaults for `xml` and `png`. -/
def ctTypesXml : Xml := .mk (qn nsCT "Types") [] [
  .mk (qn nsCT "Default") [("Extension", "xml"), ("ContentType", "application/xml")] [] none,
  .mk (qn nsCT "Default") [("Extension", "png"), ("ContentType", "image/png")] [] none] none

/-- A minimal well-formed `ppt/presentation.xml` (no id lists, no sections). -/
def presentationXml : Xml := .mk (qn nsP "presentation") [] [] none

/-- `presentation.xml.rels` holding exactly one relationship of kind `image`
targeting `media/pic1.png`. -/
def presRelsImage : Xml := .mk (qn nsREL "Relationships") [] [
  .mk (qn nsREL "Relationship")
    [("Id", "rId1"), ("Type", relTypeImage), ("Target", "media/pic1.png")] [] none] none

/-- An empty relationship descriptor. -/
def presRelsEmpty : Xml := .mk (qn nsREL "Relationships") [] [] none

/-- The corrupt package A of the spec's concrete scenario. -/
def pkgA : List (String × Content) :=
  [("[Content_Types].xml", .xml ctTypesXml),
   ("ppt/presentation.xml", .xml presentationXml),
   ("ppt/_rels/presentation.xml.rels", .xml presRelsImage),
   ("ppt/media/pic1.png", .bin "PNG")]

/-- The repaired package B: identical to A except that the presentation
descriptor lacks the image relationship. -/
def pkgB : List (String × Content) :=
  [("[Content_Types].xml", .xml ctTypesXml),
   ("ppt/presentation.xml", .xml presentationXml),
   ("ppt/_rels/presentation.xml.rels", .xml presRelsEmpty),
   ("ppt/media/pic1.png", .bin "PNG")]

/-- A relationship descriptor with a single External relationship. -/
def extRelsXml : Xml := .mk (qn nsREL "Relationships") [] [
  .mk (qn nsREL "Relationship")
    [("Id", "rId9"), ("Type", relTypeImage), ("Target", "https://example.com/img.png"),
     ("TargetMode", "External")] [] none] none

/-- A one-part archive holding only the External-relationship descriptor. -/
def extFiles : List (String × Content) := [("a/_rels/b.xml.rels", .xml extRelsXml)]

/-- The relationship record `_parse_rels` produces for the External
relationship of `extRelsXml`. -/
def extParsedRel : Rel :=
  { id := "rId9", type := relTypeImage, target := "https://example.com/img.png",
    mode := "External", resolved := "https://example.com/img.png" }

/-- A presentation relationship set holding two misplaced `image`
relationships (as `_parse_rels` would produce them). -/
def twoImageRelations : List (String × List Rel) :=
  [("ppt/presentation.xml",
    [{ id := "rId1", type := relTypeImage, target := "media/a.png", mode := "Internal",
       resolved := "ppt/media/a.png" },
     { id := "rId2", type := relTypeImage, target := "media/b.png", mode := "Internal",
       resolved := "ppt/media/b.png" }])]

/-- A relations dict in which source `s` has two relationships sharing id
`rId1` (empty targets, so no broken-reference issue arises). -/
def dupDemoRelations : List (String × List Rel) :=
  [("s",
    [{ id := "rId1", type := relTypeSlide, target := "", mode := "Internal", resolved := "" },
     { id := "rId1", type := relTypeImage, target := "", mode := "Internal", resolved := "" }])]

/-- A relations dict with one Internal relationship whose resolved target is
missing from the part set. -/
def brokenDemoRelations : List (String × List Rel) :=
  [("x.xml",
    [{ id := "rId1", type := relTypeSlide, target := "missing.xml", mode := "Internal",
       resolved := "missing.xml" }])]

/-- The files dict that goes with `brokenDemoRelations`. -/
def brokenDemoFiles : List (String × Content) := [("x.xml", .bin "x")]

/-! ### Claim C1 -/

/-- C1 (confirmed).  For the corrupt package A whose presentation descriptor
holds exactly one `image` relationship targeting `media/pic1.png` and the
repaired package B lacking it: validating A yields exactly one issue of type
`INVALID_PRESENTATION_RELS`; `compare(A, B)` contains a
`PRES_RELS_TYPE_COUNT_CHANGED` diff for kind `image` with `corrupt_count=1`,
`repaired_count=0` and severity CRITICAL; and the hypothesis generator puts
the misplaced-relations hypothesis first. -/
theorem c1_pres_rels_scenario :
    ((analyze pkgA).map (fun st =>
      (st.issues.filter (fun i => i.ty == "INVALID_PRESENTATION_RELS")).length) = .ok 1) ∧
    (((analyze pkgA).bind fun stA => (analyze pkgB).bind fun stB =>
      (compare stA stB).map fun diffs =>
        diffs.any (fun d =>
          match d with
          | .presRelsTypeCountChanged t sev cc rc _ _ =>
            t == "image" && sev == "CRITICAL" && cc == 1 && rc == 0
          | _ => false)) = .ok true) ∧
    (((analyze pkgA).bind fun stA => (analyze pkgB).bind fun stB =>
      (compare stA stB).map fun diffs =>
        (generateHypotheses stA.issues diffs).head?) =
      .ok (some (Hyp.misplacedRels 2 ["image"]))) :=
  ⟨rfl, rfl, rfl⟩

/-! ### Claim C2 -/

/-- C2 counterexample: a package whose ZIP container opens fine but whose
content-type manifest is not well-formed XML makes `analyze` abort with an
uncaught `ET.ParseError` — construction does not always succeed. -/
theorem c2_malformed_manifest_aborts_cex :
    analyze [("[Content_Types].xml", Content.bin "junk")] = .error .parseError := rfl

/-- C2 (amended): a missing content-type manifest degrades as claimed — one
CRITICAL defect record, empty default and override tables, no exception.
(The malformed-manifest half of the claim fails: `_parse_content_types` does
not wrap `ET.fromstring` in try/except, see the counterexample.) -/
theorem c2_missing_manifest_degrades (files : List (String × Content))
    (h : dmem files "[Content_Types].xml" = false) :
    parseContentTypes files = .ok ([], [], [Issue.criticalMissingCT]) := by
  unfold parseContentTypes
  simp [h]

/-- Witness for `c2_missing_manifest_degrades` at the empty archive. -/
theorem c2_missing_manifest_degrades_w :
    parseContentTypes [] = .ok ([], [], [Issue.criticalMissingCT]) :=
  c2_missing_manifest_degrades [] rfl

/-! ### Claim C3 -/

/-- C3 (confirmed).  The resolver equations of the spec hold, and excess
`..` segments are absorbed: popping on an empty accumulator is a no-op (so
resolution always returns a path, never underflows), illustrated also by a
concrete excess-`..` resolution. -/
theorem c3_resolver_equations :
    resolveTarget "a/b/c.xml" "../d.xml" = "a/d.xml" ∧
    resolveTarget "" "x.xml" = "x.xml" ∧
    resolveTarget "a/b.xml" "/c.xml" = "c.xml" ∧
    resolveTarget "a/b.xml" "../../../x.xml" = "x.xml" ∧
    ∀ rest : List String, normSegs (".." :: rest) [] = normSegs rest [] :=
  ⟨rfl, rfl, rfl, rfl, fun _ => rfl⟩

/-! ### Claim C4 -/

/-- Modelled from the spec (§4.4), for comparison with the code: normalize by
splitting on `/` and processing segments left-to-right — `..` pops the last
accumulated segment (no-op if the accumulator is empty), `.` and empty
segments are dropped, any other segment is appended. -/
def specNormSegs : List String → List String → List String
| [], acc => acc
| seg :: rest, acc =>
  if seg == ".." then specNormSegs rest acc.dropLast
  else if seg == "." || seg == "" then specNormSegs rest acc
  else specNormSegs rest (acc ++ [seg])

/-- Modelled from the spec (§4.4): for a non-absolute target, concatenate the
source's containing directory with the target, then normalize; the final
canonical path is the accumulated segments joined by `/`. -/
def specConcatResolve (source target : String) : String :=
  let dir := pyJoin '/' ((pySplit source '/').dropLast)
  pyJoin '/' (specNormSegs (pySplit (dir ++ "/" ++ target) '/') [])

lemma specNormSegs_eq_normSegs : ∀ (l : List String) (acc : List String),
    specNormSegs l acc = normSegs l acc := by
  intro l
  induction l with
  | nil => intro acc; rfl
  | cons seg rest ih =>
    intro acc
    simp only [specNormSegs, normSegs]
    by_cases h1 : seg = ".."
    · simp [h1, ih]
    · by_cases h2 : seg = "."
      · simp [h1, h2, ih]
      · by_cases h3 : seg = ""
        · simp [h1, h2, h3, ih]
        · simp [h1, h2, h3, ih]

/-- C4 counterexample: for a source part at the package root the code
returns the target unchanged (`if not base: return target`), skipping the
spec's normalization — `resolve("b.xml", "./x.xml")` is `"./x.xml"`, not the
claimed `"x.xml"`. -/
theorem c4_root_source_cex :
    resolveTarget "b.xml" "./x.xml" = "./x.xml" ∧
    specConcatResolve "b.xml" "./x.xml" = "x.xml" ∧
    resolveTarget "b.xml" "./x.xml" ≠ specConcatResolve "b.xml" "./x.xml" :=
  ⟨rfl, rfl, by decide⟩

/-- C4 (amended): the claimed concatenate-then-normalize equality holds for
every non-absolute target whenever the source's containing directory is
non-empty; when the containing directory is empty (source at the package
root) the code instead returns the target unchanged. -/
theorem c4_resolve_matches_spec_off_root (source target : String)
    (habs : pyStartsWith target "/" = false)
    (hsrc : source ≠ "")
    (hdir : pyJoin '/' ((pySplit source '/').dropLast) ≠ "") :
    resolveTarget source target = specConcatResolve source target := by
  unfold resolveTarget specConcatResolve
  simp [habs, hsrc, hdir, specNormSegs_eq_normSegs]

/-- Witness for `c4_resolve_matches_spec_off_root` at
`resolve("a/b/c.xml", "../d.xml")`. -/
theorem c4_resolve_matches_spec_off_root_w :
    resolveTarget "a/b/c.xml" "../d.xml" = specConcatResolve "a/b/c.xml" "../d.xml" :=
  c4_resolve_matches_spec_off_root "a/b/c.xml" "../d.xml" rfl (by decide) (by decide)

/-! ### Claim C5 -/

/-- C5 counterexample: parsing a descriptor with one External relationship
leaves `resolved` set — it holds the literal target string, not an
absent/None value as the claim states. -/
theorem c5_external_resolved_set_cex :
    ((parseRels extFiles "a/_rels/b.xml.rels").map (fun pr =>
      match pr.1 with
      | some (_, rels) => rels.map (fun rel => (rel.mode, rel.resolved))
      | none => [])) = .ok [("External", "https://example.com/img.png")] := rfl

/-- C5 (amended): `_parse_rels` always populates `resolved`: with the raw
target for mode `External`, and with the canonically resolved path for every
other mode (`Internal` being the default). -/
theorem c5_resolved_field_rule (files : List (String × Content))
    (relsPath src : String) (rels : List Rel) (issues : List Issue)
    (hok : parseRels files relsPath = .ok (some (src, rels), issues)) :
    ∀ rel ∈ rels,
      rel.resolved = if rel.mode != "External" then resolveTarget src rel.target
                     else rel.target := by
  rw [parseRels] at hok
  split at hok
  · simp at hok
  · cases hrp : relsToPart relsPath with
    | error e =>
      rw [hrp] at hok
      simp only [Bind.bind, Except.bind] at hok
      exact absurd hok (by simp)
    | ok sourcePart =>
      rw [hrp] at hok
      simp only [Bind.bind, Except.bind, Except.ok.injEq, Prod.mk.injEq,
        Option.some.injEq] at hok
      obtain ⟨⟨hsrc, hrels⟩, _⟩ := hok
      subst hsrc
      subst hrels
      intro rel hrel
      simp only [List.mem_map] at hrel
      obtain ⟨x, _, rfl⟩ := hrel
      by_cases h : xGetD x "TargetMode" "Internal" = "External"
      · simp [h]
      · simp [h]

/-- Witness for `c5_resolved_field_rule` at the External-relationship
descriptor. -/
theorem c5_resolved_field_rule_w :
    extParsedRel.resolved =
      if extParsedRel.mode != "External" then resolveTarget "a/b.xml" extParsedRel.target
      else extParsedRel.target :=
  c5_resolved_field_rule extFiles "a/_rels/b.xml.rels" "a/b.xml" [extParsedRel] [] rfl
    extParsedRel (by simp)

/-! ### Claim C6 -/

lemma containsCons [BEq α] (a : α) (l : List α) (b : α) :
    (a :: l).contains b = (b == a || l.contains b) := by
  simp [List.contains, List.elem]
  cases b == a <;> rfl

lemma containsAppend [BEq α] : ∀ (l1 l2 : List α) (a : α),
    (l1 ++ l2).contains a = (l1.contains a || l2.contains a) := by
  intro l1 l2 a
  induction l1 with
  | nil => simp [List.contains, List.elem]
  | cons x xs ih => simp [containsCons, ih, Bool.or_assoc]

lemma dedupAux_congr [BEq α] : ∀ (l s1 s2 : List α),
    (∀ a, s1.contains a = s2.contains a) → dedupAux l s1 = dedupAux l s2 := by
  intro l
  induction l with
  | nil => intro s1 s2 _; rfl
  | cons a as ih =>
    intro s1 s2 h
    simp only [dedupAux, h a]
    by_cases hc : s2.contains a = true
    · rw [if_pos hc, if_pos hc, ih _ _ h]
    · rw [if_neg hc, if_neg hc, ih (a :: s1) (a :: s2) (fun b => by
        rw [containsCons, containsCons, h b])]

lemma dkeys_cons (kv : α × β) (d : List (α × β)) : dkeys (kv :: d) = kv.1 :: dkeys d := rfl

lemma dset_keys [BEq α] [LawfulBEq α] : ∀ (d : List (α × β)) (k : α) (v : β),
    dkeys (dset d k v) = if (dkeys d).contains k then dkeys d else dkeys d ++ [k]
| [], k, v => by simp [dset, dkeys]
| (k', v') :: rest, k, v => by
  simp only [dset]
  by_cases h : k' = k
  · subst h
    simp [dkeys_cons, containsCons]
  · have h2 : (k' == k) = false := by simp [h]
    have h3 : (k == k') = false := by simp [Ne.symm h]
    rw [if_neg (by simp [h2])]
    rw [dkeys_cons, dkeys_cons, containsCons, h3, Bool.false_or, dset_keys rest k v]
    by_cases hc : (dkeys rest).contains k = true
    · rw [if_pos hc, if_pos hc]
    · rw [if_neg hc, if_neg hc]
      rfl

lemma groupInvalid_length : ∀ (l : List InvalidRel) (acc : List (String × List InvalidRel)),
    (groupInvalidByType l acc).length =
      acc.length + (dedupAux (l.map (·.type)) (dkeys acc)).length := by
  intro l
  induction l with
  | nil => intro acc; simp [groupInvalidByType, dedupAux]
  | cons r rs ih =>
    intro acc
    simp only [groupInvalidByType, List.map_cons, dedupAux]
    have hkeys := dset_keys acc r.type (dgetD acc r.type [] ++ [r])
    by_cases hc : (dkeys acc).contains r.type = true
    · rw [if_pos hc] at hkeys
      rw [ih, hkeys, if_pos hc]
      have hlen : (dset acc r.type (dgetD acc r.type [] ++ [r])).length = acc.length := by
        have h1 := congrArg List.length hkeys
        simpa [dkeys] using h1
      rw [hlen]
    · rw [if_neg hc] at hkeys
      rw [ih, hkeys, if_neg hc]
      have hlen : (dset acc r.type (dgetD acc r.type [] ++ [r])).length = acc.length + 1 := by
        have h1 := congrArg List.length hkeys
        simpa [dkeys] using h1
      rw [hlen]
      rw [dedupAux_congr (rs.map (·.type)) (dkeys acc ++ [r.type]) (r.type :: dkeys acc)
        (fun a => by
          rw [containsAppend, containsCons, containsCons]
          cases a == r.type <;> simp)]
      simp only [List.length_cons]
      omega

/-- C6 counterexample: two misplaced `image` relationships in the
presentation descriptor produce 2 issues (one summary plus one per-kind
aggregate), not the 2 individual + 1 aggregate = 3 the claim predicts. -/
theorem c6_two_misplaced_cex :
    (validatePresentationRels twoImageRelations).length = 2 ∧
    (validatePresentationRels twoImageRelations).length ≠ 2 + 1 :=
  ⟨rfl, by decide⟩

/-- C6 (amended): N misplaced relationships of k distinct kinds in the
presentation descriptor yield `1 + k` issues — one `INVALID_PRESENTATION_RELS`
summary issue carrying all N occurrences, plus one per-kind aggregate issue
per distinct kind — not N individual issues plus k aggregates. -/
theorem c6_pres_rels_issue_count (relations : List (String × List Rel)) :
    (validatePresentationRels relations).length =
      if (invalidPresRelsOf relations).isEmpty then 0
      else 1 + (pySet ((invalidPresRelsOf relations).map (·.type))).length := by
  unfold validatePresentationRels
  by_cases h : (invalidPresRelsOf relations).isEmpty
  · simp [h]
  · simp only [h, if_neg, Bool.false_eq_true, not_false_eq_true, List.length_cons,
      List.length_map, pySet]
    rw [groupInvalid_length]
    simp [dkeys, Nat.add_comm]

/-! ### Claim C7 -/

/-- C7 counterexample: for packages A and B differing only in one
relationship (present in A, absent in B), `compare(A, B)` reports a
`RELATION_REMOVED` diff, but `compare(B, A)` contains no relation diff at
all — `_compare_relations` iterates only the corrupt side's ids, so the
add/remove diffs are not presence-symmetric. -/
theorem c7_compare_not_symmetric_cex :
    (((analyze pkgA).bind fun stA => (analyze pkgB).bind fun stB =>
      (compare stA stB).map fun ds =>
        ds.any (fun d => d.ty == "RELATION_REMOVED")) = .ok true) ∧
    (((analyze pkgB).bind fun stB => (analyze pkgA).bind fun stA =>
      (compare stB stA).map fun ds =>
        ds.any (fun d => pyIn "RELATION" d.ty)) = .ok false) :=
  ⟨rfl, rfl⟩

/-- C7 (amended): file-set diffs are presence-symmetric with the direction
swapped — a part only in the first model is FILE_REMOVED one way and
FILE_ADDED the other — but the severities differ between the two directions
(HIGH for removal, MEDIUM for addition); and relationship/content-type
differences are reported only from the corrupt side (see the
counterexample), so compare is not presence-symmetric for those. -/
theorem c7_file_list_presence_symmetry (c r : AState) (f : String) :
    (Diff.fileRemoved f ∈ compareFileLists c r ↔ Diff.fileAdded f ∈ compareFileLists r c) ∧
    (Diff.fileRemoved f).severity = "HIGH" ∧ (Diff.fileAdded f).severity = "MEDIUM" := by
  refine ⟨?_, rfl, rfl⟩
  simp [compareFileLists, List.mem_filter, List.mem_map]

/-! ### Claims C8 and C10: infrastructure -/

/-- The filter matching the DUPLICATE_RID issue of one (source, rId) pair. -/
def isDupSR (source rid : String) : Issue → Bool
| .duplicateRid s r _ => s == source && r == rid
| _ => false

/-- Issues produced by the duplicate-id / broken-reference loop. -/
def Issue.isRefIssue : Issue → Bool
| .duplicateRid .. => true
| .brokenRef .. => true
| _ => false

lemma isDupSR_false_of_not_ref (source rid : String) (i : Issue)
    (h : i.isRefIssue = false) : isDupSR source rid i = false := by
  cases i <;> simp_all [Issue.isRefIssue, isDupSR]

lemma containsIffMem [BEq α] [LawfulBEq α] : ∀ (l : List α) (a : α),
    l.contains a = true ↔ a ∈ l := by
  intro l a
  induction l with
  | nil => simp [List.contains, List.elem]
  | cons x xs ih =>
    rw [containsCons, List.mem_cons, Bool.or_eq_true, ih, beq_iff_eq]

lemma dget_eq_none_of_not_mem [BEq α] [LawfulBEq α] : ∀ (d : List (α × β)) (k : α),
    k ∉ dkeys d → dget d k = none
| [], _, _ => rfl
| (k', v') :: rest, k, h => by
  rw [dkeys_cons] at h
  simp only [List.mem_cons, not_or] at h
  simp only [dget]
  rw [if_neg (by simp [h.1, Ne.symm])]
  exact dget_eq_none_of_not_mem rest k h.2

lemma dget_of_mem_nodup [BEq α] [LawfulBEq α] : ∀ (d : List (α × β)) (k : α) (v : β),
    (dkeys d).Nodup → (k, v) ∈ d → dget d k = some v
| [], _, _, _, hm => absurd hm (List.not_mem_nil _)
| (k', v') :: rest, k, v, hnd, hm => by
  rw [dkeys_cons] at hnd
  have h1 := (List.nodup_cons.mp hnd).1
  have h2 := (List.nodup_cons.mp hnd).2
  rcases List.mem_cons.mp hm with heq | htail
  · injection heq with ha hb
    subst ha
    subst hb
    simp [dget]
  · have hkmem : k ∈ dkeys rest := List.mem_map_of_mem Prod.fst htail
    have hne : k' ≠ k := fun he => h1 (he ▸ hkmem)
    simp only [dget]
    rw [if_neg (by simp [hne])]
    exact dget_of_mem_nodup rest k v h2 htail

lemma dget_dset_self [BEq α] [LawfulBEq α] : ∀ (d : List (α × β)) (k : α) (v : β),
    dget (dset d k v) k = some v
| [], k, v => by simp [dset, dget]
| (k', v') :: rest, k, v => by
  simp only [dset]
  by_cases h : k' = k
  · subst h
    simp [dget]
  · have h2 : (k' == k) = false := by simp [h]
    simp only [h2, Bool.false_eq_true, if_false, dget]
    exact dget_dset_self rest k v

lemma dget_dset_ne [BEq α] [LawfulBEq α] (k1 k2 : α) (hne : k1 ≠ k2) :
    ∀ (d : List (α × β)) (v : β), dget (dset d k1 v) k2 = dget d k2
| [], v => by
  simp only [dset, dget]
  rw [if_neg (by simp [hne])]
| (k', v') :: rest, v => by
  simp only [dset]
  by_cases h : k' = k1
  · subst h
    simp only [dset, beq_self_eq_true, if_true, dget]
    rw [if_neg (by simp [hne]), if_neg (by simp [hne])]
  · have h2 : (k' == k1) = false := by simp [h]
    simp only [h2, Bool.false_eq_true, if_false, dget]
    by_cases hk : k' = k2
    · simp [hk]
    · rw [if_neg (by simp [hk]), if_neg (by simp [hk])]
      exact dget_dset_ne k1 k2 hne rest v

lemma dset_keys_nodup [BEq α] [LawfulBEq α] (d : List (α × β)) (k : α) (v : β)
    (h : (dkeys d).Nodup) : (dkeys (dset d k v)).Nodup := by
  rw [dset_keys]
  by_cases hc : (dkeys d).contains k = true
  · rw [if_pos hc]
    exact h
  · rw [if_neg hc]
    rw [List.nodup_append]
    refine ⟨h, List.nodup_singleton k, ?_⟩
    intro a ha hb
    rw [List.mem_singleton] at hb
    subst hb
    exact hc ((containsIffMem _ _).mpr ha)

/-- The number of relationships in `rels` carrying id `rid` (what
`rid_counts[rid]` ends up as). -/
def relIdCount (rid : String) (rels : List Rel) : Nat :=
  (rels.filter (fun r => r.id == rid)).length

lemma relIdCount_cons (rid : String) (r : Rel) (rs : List Rel) :
    relIdCount rid (r :: rs) = (if r.id = rid then 1 else 0) + relIdCount rid rs := by
  simp only [relIdCount, List.filter_cons]
  by_cases h : r.id = rid
  · simp [h, Nat.add_comm]
  · simp [h]

lemma ridCounts_keys_nodup : ∀ (rels : List Rel) (acc : List (String × Nat)),
    (dkeys acc).Nodup → (dkeys (ridCounts rels acc)).Nodup
| [], _, h => h
| r :: rs, acc, h =>
  ridCounts_keys_nodup rs _ (dset_keys_nodup acc r.id (dgetD acc r.id 0 + 1) h)

lemma ridCounts_get (rid : String) : ∀ (rels : List Rel) (acc : List (String × Nat)),
    dget (ridCounts rels acc) rid =
      match dget acc rid with
      | some v => some (v + relIdCount rid rels)
      | none => if relIdCount rid rels = 0 then none else some (relIdCount rid rels) := by
  intro rels
  induction rels with
  | nil =>
    intro acc
    simp only [ridCounts, relIdCount, List.filter_nil, List.length_nil]
    cases dget acc rid <;> simp
  | cons r rs ih =>
    intro acc
    simp only [ridCounts]
    rw [ih, relIdCount_cons]
    by_cases h : r.id = rid
    · subst h
      rw [dget_dset_self]
      cases hacc : dget acc r.id <;> simp [dgetD, hacc] <;> omega
    · rw [dget_dset_ne r.id rid h]
      cases hacc : dget acc rid <;> simp [hacc, h]

lemma dupOf_pos (source k : String) (v : Nat) (hv : v > 1) :
    dupOf source (k, v) = some (Issue.duplicateRid source k v) := if_pos hv

lemma dupOf_neg (source k : String) (v : Nat) (hv : ¬ v > 1) :
    dupOf source (k, v) = none := if_neg hv

lemma dupFilterAux (source rid : String) : ∀ (d : List (String × Nat)),
    (dkeys d).Nodup →
    ((d.filterMap (dupOf source)).filter (isDupSR source rid)) =
      (match dget d rid with
       | some v => if 2 ≤ v then [Issue.duplicateRid source rid v] else []
       | none => []) := by
  intro d
  induction d with
  | nil => simp [dget]
  | cons rc rest ih =>
    intro hnd
    obtain ⟨k, v⟩ := rc
    rw [dkeys_cons] at hnd
    have h1 := (List.nodup_cons.mp hnd).1
    have h2 := (List.nodup_cons.mp hnd).2
    by_cases hk : k = rid
    · subst hk
      have hrest : dget rest k = none := dget_eq_none_of_not_mem rest k h1
      rw [show dget ((k, v) :: rest) k = some v by simp [dget]]
      by_cases hv : v > 1
      · rw [List.filterMap_cons_some (dupOf_pos source k v hv), List.filter_cons]
        rw [if_pos (by simp [isDupSR])]
        rw [ih h2, hrest]
        simp [show 2 ≤ v by omega]
      · rw [List.filterMap_cons_none (dupOf_neg source k v hv), ih h2, hrest]
        simp [show ¬ 2 ≤ v by omega]
    · have hbk : (k == rid) = false := by simp [hk]
      rw [show dget ((k, v) :: rest) rid = dget rest rid by simp [dget, hbk]]
      by_cases hv : v > 1
      · rw [List.filterMap_cons_some (dupOf_pos source k v hv), List.filter_cons]
        rw [if_neg (by simp [isDupSR, hk])]
        exact ih h2
      · rw [List.filterMap_cons_none (dupOf_neg source k v hv)]
        exact ih h2

lemma dupRidIssues_filter (source rid : String) (rels : List Rel) :
    (dupRidIssues source rels).filter (isDupSR source rid) =
      (if 2 ≤ relIdCount rid rels then
        [Issue.duplicateRid source rid (relIdCount rid rels)]
      else []) := by
  unfold dupRidIssues
  rw [dupFilterAux source rid _ (ridCounts_keys_nodup rels [] (by simp [dkeys]))]
  rw [ridCounts_get rid rels []]
  simp only [dget]
  by_cases h : relIdCount rid rels = 0
  · rw [h]
    simp
  · rw [if_neg h]

lemma filter_eq_nil_of_all_false {p : Issue → Bool} : ∀ {l : List Issue},
    (∀ i ∈ l, p i = false) → l.filter p = []
| [], _ => rfl
| i :: rest, h => by
  simp only [List.filter_cons, h i (List.mem_cons_self i rest)]
  exact filter_eq_nil_of_all_false (fun j hj => h j (List.mem_cons_of_mem i hj))

lemma dupRidIssues_filter_ne (source rid s : String) (hne : s ≠ source) (rels : List Rel) :
    (dupRidIssues s rels).filter (isDupSR source rid) = [] := by
  apply filter_eq_nil_of_all_false
  intro i hi
  simp only [dupRidIssues, List.mem_filterMap] at hi
  obtain ⟨rc, _, h⟩ := hi
  unfold dupOf at h
  split at h
  · injection h with h'
    subst h'
    simp [isDupSR, hne]
  · exact absurd h (by simp)

lemma brokenRefIssues_filter_dup (source rid : String) (allParts : List String)
    (s : String) (rels : List Rel) :
    (brokenRefIssues allParts s rels).filter (isDupSR source rid) = [] := by
  apply filter_eq_nil_of_all_false
  intro i hi
  simp only [brokenRefIssues, List.mem_filterMap] at hi
  obtain ⟨rel, _, h⟩ := hi
  split at h
  · exact absurd h (by simp)
  · split at h
    · injection h with h'
      subst h'
      rfl
    · exact absurd h (by simp)

lemma coverage_no_ref (files : List (String × Content)) (cts dts : List (String × String)) :
    ∀ i ∈ coverageIssues files cts dts, i.isRefIssue = false := by
  intro i hi
  simp only [coverageIssues, List.mem_filterMap] at hi
  obtain ⟨part, _, h⟩ := hi
  split at h
  · exact absurd h (by simp)
  · split at h
    · exact absurd h (by simp)
    · split at h
      · split at h
        · injection h with h'
          subst h'
          rfl
        · exact absurd h (by simp)
      · split at h
        · injection h with h'
          subst h'
          rfl
        · exact absurd h (by simp)

lemma layout_no_ref (files : List (String × Content)) (relations : List (String × List Rel)) :
    ∀ i ∈ validateLayoutMasterChain files relations, i.isRefIssue = false := by
  intro i hi
  simp only [validateLayoutMasterChain, List.mem_flatMap] at hi
  obtain ⟨name, _, h⟩ := hi
  split at h
  · exact absurd h (by simp)
  · split at h
    · rw [List.mem_singleton] at h
      subst h
      rfl
    · split at h
      · exact absurd h (by simp)
      · rw [List.mem_singleton] at h
        subst h
        rfl

lemma presRels_no_ref (relations : List (String × List Rel)) :
    ∀ i ∈ validatePresentationRels relations, i.isRefIssue = false := by
  intro i hi
  simp only [validatePresentationRels] at hi
  split at hi
  · exact absurd hi (by simp)
  · rcases List.mem_cons.mp hi with heq | htail
    · subst heq
      rfl
    · simp only [List.mem_map] at htail
      obtain ⟨tr, _, h⟩ := htail
      subst h
      rfl

lemma sections_no_ref (root : Xml) : ∀ i ∈ validateSections root, i.isRefIssue = false := by
  intro i hi
  simp only [validateSections, List.mem_flatMap, List.mem_filterMap] at hi
  obtain ⟨sect, _, idOpt, _, h⟩ := hi
  split at h
  · split at h
    · injection h with h'
      subst h'
      rfl
    · exact absurd h (by simp)
  · exact absurd h (by simp)

lemma notesMaster_no_ref (relations : List (String × List Rel)) (root : Xml) :
    ∀ i ∈ validateNotesMaster relations root, i.isRefIssue = false := by
  intro i hi
  simp only [validateNotesMaster] at hi
  split at hi
  · exact absurd hi (by simp)
  · split at hi
    · split at hi
      · split at hi
        · exact absurd hi (by simp)
        · rw [List.mem_singleton] at hi
          subst hi
          rfl
      · exact absurd hi (by simp)
    · exact absurd hi (by simp)

lemma presIds_no_ref (files : List (String × Content)) (relations : List (String × List Rel)) :
    ∀ i ∈ validatePresentationIds files relations, i.isRefIssue = false := by
  intro i hi
  simp only [validatePresentationIds] at hi
  split at hi
  · exact absurd hi (by simp)
  · split at hi
    · exact absurd hi (by simp)
    · simp only [List.append_assoc, List.mem_append] at hi
      rcases hi with h | h | h | h | h
      · split at h
        · rw [List.mem_singleton] at h
          subst h
          rfl
        · exact absurd h (by simp)
      · split at h
        · rw [List.mem_singleton] at h
          subst h
          rfl
        · exact absurd h (by simp)
      · exact presRels_no_ref relations i h
      · exact sections_no_ref _ i h
      · exact notesMaster_no_ref relations _ i h

lemma noteslides_no_ref (files : List (String × Content)) (relations : List (String × List Rel)) :
    ∀ i ∈ validateNoteslides files relations, i.isRefIssue = false := by
  intro i hi
  simp only [validateNoteslides, List.mem_flatMap] at hi
  obtain ⟨name, _, h⟩ := hi
  split at h
  · exact absurd h (by simp)
  · split at h
    · exact absurd h (by simp)
    · simp only [List.mem_append] at h
      rcases h with h | h
      · split at h
        · exact absurd h (by simp)
        · split at h
          · split at h
            · split at h
              · exact absurd h (by simp)
              · rw [List.mem_singleton] at h
                subst h
                rfl
            · exact absurd h (by simp)
          · exact absurd h (by simp)
      · split at h
        · exact absurd h (by simp)
        · rw [List.mem_singleton] at h
          subst h
          rfl

lemma app_no_ref (files : List (String × Content)) (issues : List Issue)
    (h : validateAppProperties files = .ok issues) : ∀ i ∈ issues, i.isRefIssue = false := by
  unfold validateAppProperties at h
  split at h
  · injection h with h'
    subst h'
    intro i hi
    exact absurd hi (by simp)
  · split at h
    · injection h with h'
      subst h'
      intro i hi
      exact absurd hi (by simp)
    · rename_i root _
      cases h1 : elemInt (xFindDeep (qn nsEP "Slides") root) with
      | error e =>
        rw [h1] at h
        simp only [Bind.bind, Except.bind] at h
        exact absurd h (by simp)
      | ok ds =>
        rw [h1] at h
        simp only [Bind.bind, Except.bind] at h
        cases h2 : elemInt (xFindDeep (qn nsEP "Notes") root) with
        | error e =>
          rw [h2] at h
          exact absurd h (by simp)
        | ok dn =>
          rw [h2] at h
          injection h with h'
          subst h'
          intro i hi
          simp only [List.mem_append] at hi
          rcases hi with hh | hh
          · split at hh
            · rw [List.mem_singleton] at hh
              subst hh
              rfl
            · exact absurd hh (by simp)
          · split at hh
            · rw [List.mem_singleton] at hh
              subst hh
              rfl
            · exact absurd hh (by simp)

lemma comments_no_ref (files : List (String × Content)) :
    ∀ i ∈ validateComments files, i.isRefIssue = false := by
  intro i hi
  simp only [validateComments] at hi
  split at hi
  · exact absurd hi (by simp)
  · split at hi
    · rw [List.mem_singleton] at hi
      subst hi
      rfl
    · simp only [List.mem_flatMap] at hi
      obtain ⟨name, _, h⟩ := hi
      split at h
      · exact absurd h (by simp)
      · split at h
        · rw [List.mem_singleton] at h
          subst h
          rfl
        · simp only [List.mem_filterMap] at h
          obtain ⟨cm, _, hh⟩ := h
          split at hh
          · split at hh
            · injection hh with h'
              subst h'
              rfl
            · exact absurd hh (by simp)
          · exact absurd hh (by simp)

lemma filterFlatMap {α β : Type} (p : β → Bool) (f : α → List β) : ∀ (l : List α),
    (l.flatMap f).filter p = l.flatMap (fun x => (f x).filter p) := by
  intro l
  induction l with
  | nil => rfl
  | cons x xs ih => simp [List.flatMap_cons, List.filter_append, ih]

lemma refIssues_filter (allParts : List String) (source rid : String) :
    ∀ (relations : List (String × List Rel)), (dkeys relations).Nodup →
    ((relations.flatMap (fun sr =>
        dupRidIssues sr.1 sr.2 ++ brokenRefIssues allParts sr.1 sr.2)).filter
      (isDupSR source rid)) =
      (if 2 ≤ relIdCount rid (dgetD relations source []) then
        [Issue.duplicateRid source rid (relIdCount rid (dgetD relations source []))]
      else []) := by
  intro relations
  induction relations with
  | nil =>
    intro _
    simp [dgetD, dget, relIdCount]
  | cons sr rest ih =>
    intro hnd
    obtain ⟨s, rels⟩ := sr
    rw [dkeys_cons] at hnd
    have h1 := (List.nodup_cons.mp hnd).1
    have h2 := (List.nodup_cons.mp hnd).2
    rw [List.flatMap_cons, List.filter_append, List.filter_append]
    rw [brokenRefIssues_filter_dup]
    by_cases hs : s = source
    · subst hs
      rw [dupRidIssues_filter]
      have hrest : dget rest s = none := dget_eq_none_of_not_mem rest s h1
      rw [ih h2]
      rw [show dgetD ((s, rels) :: rest) s [] = rels by simp [dgetD, dget]]
      rw [show dgetD rest s [] = [] by simp [dgetD, hrest]]
      simp [relIdCount]
    · rw [dupRidIssues_filter_ne source rid s hs]
      rw [show dgetD ((s, rels) :: rest) source [] = dgetD rest source [] by
        simp [dgetD, dget, show (s == source) = false by simp [hs]]]
      simp [ih h2]

/-! ### Claim C8 -/

/-- C8 (confirmed).  For any package model whose relations dict has distinct
source keys (as every built model does), and any (source, rId) pair: when the
id occurs n ≥ 2 times in that source's relationship set, the validator
produces exactly one DUPLICATE_RID issue for it, with `count` field n; an id
occurring at most once produces none. -/
theorem c8_duplicate_rid_unique (files : List (String × Content))
    (cts dts : List (String × String)) (relations : List (String × List Rel))
    (issues : List Issue) (source rid : String)
    (hnd : (dkeys relations).Nodup)
    (hok : validateReferences files cts dts relations = .ok issues) :
    issues.filter (isDupSR source rid) =
      (if 2 ≤ relIdCount rid (dgetD relations source []) then
        [Issue.duplicateRid source rid (relIdCount rid (dgetD relations source []))]
      else []) := by
  unfold validateReferences at hok
  cases happ : validateAppProperties files with
  | error e =>
    rw [happ] at hok
    simp only [Bind.bind, Except.bind] at hok
    exact absurd hok (by simp)
  | ok appIssues =>
    rw [happ] at hok
    simp only [Bind.bind, Except.bind] at hok
    injection hok with h'
    subst h'
    simp only [List.filter_append]
    rw [refIssues_filter (dkeys files) source rid relations hnd]
    rw [filter_eq_nil_of_all_false (fun i hi =>
      isDupSR_false_of_not_ref source rid i (coverage_no_ref files cts dts i hi))]
    rw [filter_eq_nil_of_all_false (fun i hi =>
      isDupSR_false_of_not_ref source rid i (layout_no_ref files relations i hi))]
    rw [filter_eq_nil_of_all_false (fun i hi =>
      isDupSR_false_of_not_ref source rid i (presIds_no_ref files relations i hi))]
    rw [filter_eq_nil_of_all_false (fun i hi =>
      isDupSR_false_of_not_ref source rid i (noteslides_no_ref files relations i hi))]
    rw [filter_eq_nil_of_all_false (fun i hi =>
      isDupSR_false_of_not_ref source rid i (app_no_ref files appIssues happ i hi))]
    rw [filter_eq_nil_of_all_false (fun i hi =>
      isDupSR_false_of_not_ref source rid i (comments_no_ref files i hi))]
    simp

/-- Witness for `c8_duplicate_rid_unique`: a source with two relationships
sharing id rId1 yields exactly the one DUPLICATE_RID issue with count 2. -/
theorem c8_duplicate_rid_unique_w :
    [Issue.duplicateRid "s" "rId1" 2].filter (isDupSR "s" "rId1") =
      [Issue.duplicateRid "s" "rId1" 2] :=
  c8_duplicate_rid_unique [] [] [] dupDemoRelations [Issue.duplicateRid "s" "rId1" 2]
    "s" "rId1" (by simp [dupDemoRelations, dkeys]) rfl

/-! ### Claim C10 -/

/-- C10 (confirmed).  A BROKEN_REF issue is reported only for a relationship
whose resolved path is non-empty and absent from the loaded part set; in
particular an Internal relationship with an empty resolved target is never
reported. -/
theorem c10_broken_ref_nonempty_missing (files : List (String × Content))
    (cts dts : List (String × String)) (relations : List (String × List Rel))
    (issues : List Issue) (s t rid : String)
    (hok : validateReferences files cts dts relations = .ok issues)
    (hmem : Issue.brokenRef s t rid ∈ issues) :
    t ≠ "" ∧ (dkeys files).contains t = false := by
  unfold validateReferences at hok
  cases happ : validateAppProperties files with
  | error e =>
    rw [happ] at hok
    simp only [Bind.bind, Except.bind] at hok
    exact absurd hok (by simp)
  | ok appIssues =>
    rw [happ] at hok
    simp only [Bind.bind, Except.bind] at hok
    injection hok with h'
    subst h'
    simp only [List.append_assoc, List.mem_append] at hmem
    rcases hmem with h | h | h | h | h | h | h
    · simp only [List.mem_flatMap] at h
      obtain ⟨sr, _, h⟩ := h
      rw [List.mem_append] at h
      rcases h with h | h
      · simp only [dupRidIssues, List.mem_filterMap] at h
        obtain ⟨rc, _, hh⟩ := h
        unfold dupOf at hh
        split at hh
        · exact absurd hh (by simp)
        · exact absurd hh (by simp)
      · simp only [brokenRefIssues, List.mem_filterMap] at h
        obtain ⟨rel, _, hh⟩ := h
        split at hh
        · exact absurd hh (by simp)
        · split at hh
          · rename_i hcond
            simp only [Option.some.injEq, Issue.brokenRef.injEq] at hh
            obtain ⟨_, hres, _⟩ := hh
            rw [Bool.and_eq_true] at hcond
            obtain ⟨hnonempty, hnotin⟩ := hcond
            rw [hres] at hnonempty hnotin
            constructor
            · intro he
              subst he
              simp at hnonempty
            · simpa using hnotin
          · exact absurd hh (by simp)
    · exact absurd (coverage_no_ref files cts dts _ h) (by simp [Issue.isRefIssue])
    · exact absurd (layout_no_ref files relations _ h) (by simp [Issue.isRefIssue])
    · exact absurd (presIds_no_ref files relations _ h) (by simp [Issue.isRefIssue])
    · exact absurd (noteslides_no_ref files relations _ h) (by simp [Issue.isRefIssue])
    · exact absurd (app_no_ref files appIssues happ _ h) (by simp [Issue.isRefIssue])
    · exact absurd (comments_no_ref files _ h) (by simp [Issue.isRefIssue])

/-- Witness for `c10_broken_ref_nonempty_missing` at a concrete broken
reference. -/
theorem c10_broken_ref_nonempty_missing_w :
    ("missing.xml" : String) ≠ "" ∧ (dkeys brokenDemoFiles).contains "missing.xml" = false :=
  c10_broken_ref_nonempty_missing brokenDemoFiles [] [] brokenDemoRelations
    [Issue.brokenRef "x.xml" "missing.xml" "rId1", Issue.missingContentType "x.xml"]
    "x.xml" "missing.xml" "rId1" rfl (by simp)

/-! ### Claim C9: the stray-descriptor abort -/

lemma foldl_dset_keys_nodup : ∀ (entries : List (String × Content))
    (acc : List (String × Content)), (dkeys acc).Nodup →
    (dkeys (entries.foldl (fun d e => dset d e.1 e.2) acc)).Nodup
| [], _, h => h
| e :: rest, acc, h =>
  foldl_dset_keys_nodup rest (dset acc e.1 e.2) (dset_keys_nodup acc e.1 e.2 h)

lemma loadFiles_keys_nodup (entries : List (String × Content)) :
    (dkeys (loadFiles entries)).Nodup :=
  foldl_dset_keys_nodup entries [] (by simp [dkeys])

lemma pyIndexGo_none [BEq α] [LawfulBEq α] (a : α) : ∀ (l : List α) (i : Nat),
    l.contains a = false → pyIndexGo a l i = none := by
  intro l
  induction l with
  | nil => intro i _; rfl
  | cons x xs ih =>
    intro i h
    rw [containsCons, Bool.or_eq_false_iff] at h
    have hax : a ≠ x := by simpa using h.1
    simp only [pyIndexGo]
    rw [if_neg (by simp only [beq_iff_eq]; exact fun he => hax he.symm)]
    exact ih (i + 1) h.2

/-- For a parseable descriptor whose path lacks a `_rels` segment (and is not
the package-root descriptor), `_parse_rels` raises `ValueError`. -/
lemma parseRels_stray_error (files : List (String × Content)) (name : String) (c : Content)
    (hget : dget files name = some c)
    (hne : name ≠ "_rels/.rels")
    (hseg : (pySplit name '/').contains "_rels" = false)
    (hparse : exOk (fromstring c) = true) :
    parseRels files name = .error .valueError := by
  unfold parseRels
  rw [show dgetD files name (Content.bin "") = c by simp [dgetD, hget]]
  cases hfp : fromstring c with
  | error e =>
    rw [hfp] at hparse
    simp [exOk] at hparse
  | ok root =>
    have hidx : pyIndex (pySplit name '/') "_rels" = none :=
      pyIndexGo_none "_rels" (pySplit name '/') 0 hseg
    have hrp : relsToPart name = .error .valueError := by
      unfold relsToPart
      rw [if_neg (by simp [hne])]
      simp [hidx]
    simp [hrp, Bind.bind, Except.bind]

lemma parseAllRelsGo_error (files : List (String × Content)) (name : String) (c : Content)
    (hget : dget files name = some c)
    (hsuf : pyEndsWith name ".rels" = true)
    (hne : name ≠ "_rels/.rels")
    (hseg : (pySplit name '/').contains "_rels" = false)
    (hparse : exOk (fromstring c) = true) :
    ∀ (rest : List (String × Content)) (relations : List (String × List Rel))
      (issues : List Issue),
      (name, c) ∈ rest → ∃ e, parseAllRelsGo files rest relations issues = .error e := by
  intro rest
  induction rest with
  | nil =>
    intro _ _ h
    exact absurd h (List.not_mem_nil _)
  | cons nc rest ih =>
    intro relations issues hmem
    obtain ⟨n, cc⟩ := nc
    rcases List.mem_cons.mp hmem with heq | htail
    · injection heq with ha hb
      subst ha
      subst hb
      simp only [parseAllRelsGo, hsuf, if_true]
      rw [parseRels_stray_error files name c hget hne hseg hparse]
      exact ⟨.valueError, rfl⟩
    · simp only [parseAllRelsGo]
      by_cases hn : pyEndsWith n ".rels" = true
      · rw [if_pos hn]
        cases hh : parseRels files n with
        | error e => exact ⟨e, rfl⟩
        | ok pr =>
          obtain ⟨osrc, iss⟩ := pr
          cases osrc with
          | none => exact ih _ _ htail
          | some sr => exact ih _ _ htail
      · rw [if_neg hn]
        exact ih _ _ htail

/-- C9 counterexample (to the claim as stated): the offending `.rels` entry
must also parse as XML for the abort to happen — a stray descriptor with
malformed bytes is caught earlier by the try/except, recorded as an ERROR
issue, and the analysis completes. -/
theorem c9_malformed_stray_no_abort_cex :
    (exOk (analyze [("foo.rels", Content.bin "junk")]) = true) ∧
    pyEndsWith "foo.rels" ".rels" = true ∧
    (pySplit "foo.rels" '/').contains "_rels" = false ∧
    (((analyze [("foo.rels", Content.bin "junk")]).map fun st =>
      st.issues.any (fun i => i.ty == "ERROR")) = .ok true) :=
  ⟨rfl, rfl, by decide, rfl⟩

/-- C9 (amended): if the archive holds an entry whose name ends in `.rels`,
is not the package-root descriptor, has no `_rels` path segment, and whose
bytes parse as well-formed XML, then the relationship-graph build raises an
uncaught exception (`parts.index('_rels')` fails) and the whole analysis of
the package aborts instead of degrading to a recorded defect. -/
theorem c9_stray_rels_descriptor_aborts (entries : List (String × Content))
    (name : String) (c : Content)
    (hmem : (name, c) ∈ loadFiles entries)
    (hsuf : pyEndsWith name ".rels" = true)
    (hne : name ≠ "_rels/.rels")
    (hseg : (pySplit name '/').contains "_rels" = false)
    (hparse : exOk (fromstring c) = true) :
    ∃ e, analyze entries = .error e := by
  simp only [analyze]
  cases hct : parseContentTypes (loadFiles entries) with
  | error e => exact ⟨e, rfl⟩
  | ok trip =>
    obtain ⟨cts, rest⟩ := trip
    obtain ⟨dts, ctIss⟩ := rest
    have hget : dget (loadFiles entries) name = some c :=
      dget_of_mem_nodup _ name c (loadFiles_keys_nodup entries) hmem
    obtain ⟨e, he⟩ := parseAllRelsGo_error (loadFiles entries) name c hget hsuf hne hseg
      hparse (loadFiles entries) [] [] hmem
    refine ⟨e, ?_⟩
    rw [show parseAllRels (loadFiles entries) = .error e from he]
    rfl

/-- Witness for `c9_stray_rels_descriptor_aborts`: a one-entry archive whose
stray descriptor parses as XML makes `analyze` fail. -/
theorem c9_stray_rels_descriptor_aborts_w :
    ∃ e, analyze [("foo.rels", Content.xml presRelsEmpty)] = .error e :=
  c9_stray_rels_descriptor_aborts [("foo.rels", Content.xml presRelsEmpty)]
    "foo.rels" (Content.xml presRelsEmpty) (by simp [loadFiles, dset]) rfl
    (by decide) (by decide) rfl

end PPTX
